import Mathlib

/-!
# vdhh: x86 architectural-state helpers (`src/vmm/x86.c`)

A shallow embedding of `src/vmm/x86.c`: segment access rights, descriptor
table reads and writes, call-gate reads, the CPU mode queries, and linear
address computation.

Conventions of the embedding.

* C unsigned integers are natural numbers reduced modulo `2 ^ w` at every
  place where the C code stores them in a `w`-bit object.
* The virtual CPU (`struct CPUState`) is passed explicitly and returned
  whenever a function can change it.
* Output parameters (`desc`, `idt_desc`) are taken as an argument (their
  prior content) and returned as part of the result.
* `printf` calls only log and are left out.
-/

namespace Vdhh

/-! ## Data model -/

/-- One byte of guest memory. -/
abbrev Byte := Fin 256

/-- The enumeration `x86_reg_segment` of segment registers. -/
inductive x86_reg_segment
  | REG_SEG_ES
  | REG_SEG_CS
  | REG_SEG_SS
  | REG_SEG_DS
  | REG_SEG_FS
  | REG_SEG_GS
  | REG_SEG_LDTR
  | REG_SEG_TR
  deriving DecidableEq, Repr

/-- The control-structure fields that `x86.c` reads through `rvmcs`, directly
or through `vmx_read_segment_base` and `vmx_read_segment_descriptor`, and the
selector field of each segment register. The numeric encodings (header
`vmcs.h`) play no role in `x86.c`, so a field is identified by its name. -/
inductive VmcsField
  | VMCS_GUEST_GDTR_BASE
  | VMCS_GUEST_GDTR_LIMIT
  | VMCS_GUEST_LDTR_BASE
  | VMCS_GUEST_LDTR_LIMIT
  | VMCS_GUEST_IDTR_BASE
  | VMCS_GUEST_IDTR_LIMIT
  | VMCS_GUEST_CR0
  | VMCS_GUEST_CR4
  | VMCS_GUEST_IA32_EFER
  | VMCS_GUEST_ES_BASE
  | VMCS_GUEST_CS_BASE
  | VMCS_GUEST_SS_BASE
  | VMCS_GUEST_DS_BASE
  | VMCS_GUEST_FS_BASE
  | VMCS_GUEST_GS_BASE
  | VMCS_GUEST_TR_BASE
  | VMCS_GUEST_CS_ACCESS_RIGHTS
  | VMCS_GUEST_ES_SELECTOR
  | VMCS_GUEST_CS_SELECTOR
  | VMCS_GUEST_SS_SELECTOR
  | VMCS_GUEST_DS_SELECTOR
  | VMCS_GUEST_FS_SELECTOR
  | VMCS_GUEST_GS_SELECTOR
  | VMCS_GUEST_LDTR_SELECTOR
  | VMCS_GUEST_TR_SELECTOR
  | VMCS_GUEST_ES_ACCESS_RIGHTS
  | VMCS_GUEST_SS_ACCESS_RIGHTS
  | VMCS_GUEST_DS_ACCESS_RIGHTS
  | VMCS_GUEST_FS_ACCESS_RIGHTS
  | VMCS_GUEST_GS_ACCESS_RIGHTS
  | VMCS_GUEST_LDTR_ACCESS_RIGHTS
  | VMCS_GUEST_TR_ACCESS_RIGHTS
  deriving DecidableEq, Repr

/-- One call of a guest-memory accessor: the address and the byte count. -/
inductive MemAccess
  | read (addr : Nat) (size : Nat)
  | write (addr : Nat) (size : Nat)
  deriving DecidableEq, Repr

/-- The virtual CPU as `x86.c` sees it: the control structure (one value per
field), the flags register snapshot behind the `RFLAGS(cpu)` accessor, guest
memory as a byte store, and the journal of guest-memory accessor calls made
so far (instrumentation: it records each `vmx_read_mem` / `vmx_write_mem`
call and is never read by the code). -/
structure CPUState where
  vmcs : VmcsField → Nat
  rflags : Nat
  mem : Nat → Byte
  accesses : List MemAccess

/-- Modelled from the spec: the control-structure accessor
`readField(fieldId) -> u64` (`rvmcs`, header `vmx.h`, not among the sources).
The result is a 64-bit value. -/
def rvmcs (cpu : CPUState) (field : VmcsField) : Nat :=
  cpu.vmcs field % 2 ^ 64

/-- The `n` bytes at consecutive 64-bit addresses from `addr`. -/
def load_bytes (mem : Nat → Byte) (addr n : Nat) : List Byte :=
  (List.range n).map (fun i => mem ((addr + i) % 2 ^ 64))

/-- Modelled from the spec: the guest-memory accessor
`read(addr, byteCount) -> bytes` (`vmx_read_mem`, not among the sources), as
a faithful byte store over 64-bit addresses. Returns the bytes read and the
CPU with the call recorded. -/
def vmx_read_mem (cpu : CPUState) (addr : Nat) (bytes : Nat) : List Byte × CPUState :=
  (load_bytes cpu.mem addr bytes,
   { cpu with accesses := cpu.accesses ++ [MemAccess.read addr bytes] })

/-- Byte-wise store of `data` at consecutive 64-bit addresses from `addr`. -/
def store_bytes (mem : Nat → Byte) (addr : Nat) : List Byte → (Nat → Byte)
  | [] => mem
  | b :: bs => store_bytes (fun x => if x = addr % 2 ^ 64 then b else mem x) (addr + 1) bs

/-- Modelled from the spec: the guest-memory accessor `write(addr, bytes)`
(`vmx_write_mem`, not among the sources), as a faithful byte store over
64-bit addresses. Returns the CPU with the bytes stored and the call
recorded. -/
def vmx_write_mem (cpu : CPUState) (addr : Nat) (data : List Byte) : CPUState :=
  { cpu with
    mem := store_bytes cpu.mem addr data
    accesses := cpu.accesses ++ [MemAccess.write addr data.length] }

/-- Modelled from the spec: `x68_segment_selector` (declared in header
`x86.h`, not among the sources) is a 16-bit value made of `index` (13 bits),
the table indicator `ti` (1 bit) and the requested privilege level `rpl`
(2 bits). -/
structure x68_segment_selector where
  index : Fin 8192
  ti : Fin 2
  rpl : Fin 4
  deriving DecidableEq, Repr

/-- Table indicator value naming the global descriptor table. -/
def GDT_SEL : Nat := 0

/-- Table indicator value naming the local descriptor table. -/
def LDT_SEL : Nat := 1

/-- Modelled from the spec: `struct x86_segment_descriptor` (declared in
header `x86.h`, not among the sources) is the 8-byte segment descriptor; it
is kept as the 8 bytes that lie in memory, lowest address first, and its
fields are read out of these bytes. -/
structure x86_segment_descriptor where
  bytes : List Byte
  size_eq : bytes.length = 8

/-- Modelled from the spec: `struct x86_call_gate` (declared in header
`x86.h`, not among the sources) is the 8-byte call-gate descriptor, kept as
its 8 bytes, lowest address first. -/
structure x86_call_gate where
  bytes : List Byte
  size_eq : bytes.length = 8

instance : DecidableEq x86_segment_descriptor := fun a b =>
  decidable_of_iff (a.bytes = b.bytes)
    ⟨fun h => by cases a; cases b; cases h; rfl, fun h => by rw [h]⟩

instance : DecidableEq x86_call_gate := fun a b =>
  decidable_of_iff (a.bytes = b.bytes)
    ⟨fun h => by cases a; cases b; cases h; rfl, fun h => by rw [h]⟩

/-- The little-endian value of a byte sequence. -/
def le_value : List Byte → Nat
  | [] => 0
  | b :: bs => b.val + 256 * le_value bs

/-- The descriptor as one 64-bit little-endian value. -/
def x86_segment_descriptor.raw (d : x86_segment_descriptor) : Nat :=
  le_value d.bytes

/-- The bit-field of width `w` starting at bit `off` of the descriptor. -/
def x86_segment_descriptor.bits (d : x86_segment_descriptor) (off w : Nat) : Nat :=
  (d.raw / 2 ^ off) % 2 ^ w

/-- Modelled from the spec: the layout of the 8-byte x86 segment descriptor,
bit-fields allocated from bit 0 upwards: `limit0:16`. -/
def x86_segment_descriptor.limit0 (d : x86_segment_descriptor) : Nat := d.bits 0 16

/-- Modelled from the spec: descriptor bit-field `base0:16` at bit 16. -/
def x86_segment_descriptor.base0 (d : x86_segment_descriptor) : Nat := d.bits 16 16

/-- Modelled from the spec: descriptor bit-field `base1:8` at bit 32. -/
def x86_segment_descriptor.base1 (d : x86_segment_descriptor) : Nat := d.bits 32 8

/-- Modelled from the spec: descriptor bit-field `type:4` at bit 40. -/
def x86_segment_descriptor.type (d : x86_segment_descriptor) : Nat := d.bits 40 4

/-- Modelled from the spec: descriptor bit-field `s:1` at bit 44 (system vs
code/data). -/
def x86_segment_descriptor.s (d : x86_segment_descriptor) : Nat := d.bits 44 1

/-- Modelled from the spec: descriptor bit-field `dpl:2` at bit 45. -/
def x86_segment_descriptor.dpl (d : x86_segment_descriptor) : Nat := d.bits 45 2

/-- Modelled from the spec: descriptor bit-field `p:1` at bit 47 (present). -/
def x86_segment_descriptor.p (d : x86_segment_descriptor) : Nat := d.bits 47 1

/-- Modelled from the spec: descriptor bit-field `limit1:4` at bit 48. -/
def x86_segment_descriptor.limit1 (d : x86_segment_descriptor) : Nat := d.bits 48 4

/-- Modelled from the spec: descriptor bit-field `avl:1` at bit 52. -/
def x86_segment_descriptor.avl (d : x86_segment_descriptor) : Nat := d.bits 52 1

/-- Modelled from the spec: descriptor bit-field `l:1` at bit 53 (long mode). -/
def x86_segment_descriptor.l (d : x86_segment_descriptor) : Nat := d.bits 53 1

/-- Modelled from the spec: descriptor bit-field `db:1` at bit 54. -/
def x86_segment_descriptor.db (d : x86_segment_descriptor) : Nat := d.bits 54 1

/-- Modelled from the spec: descriptor bit-field `g:1` at bit 55
(granularity). -/
def x86_segment_descriptor.g (d : x86_segment_descriptor) : Nat := d.bits 55 1

/-- Modelled from the spec: descriptor bit-field `base2:8` at bit 56. -/
def x86_segment_descriptor.base2 (d : x86_segment_descriptor) : Nat := d.bits 56 8

/-- `ZERO_INIT(*desc)` for a segment descriptor: all 8 bytes become 0. -/
def ZERO_INIT_segment_descriptor (_desc : x86_segment_descriptor) : x86_segment_descriptor :=
  ⟨List.replicate 8 0, rfl⟩

/-- `ZERO_INIT(*idt_desc)` for a call gate: all 8 bytes become 0. -/
def ZERO_INIT_call_gate (_desc : x86_call_gate) : x86_call_gate :=
  ⟨List.replicate 8 0, rfl⟩

/-! ## The functions of `x86.c` -/

/-- `x86_segment_access_rights` (x86.c lines 30-48). The result is a
`uint32_t`. -/
def x86_segment_access_rights (var : x86_segment_descriptor) : Nat :=
  if var.p = 0 then
    (1 <<< 16) % 2 ^ 32
  else
    let ar := var.type &&& 15
    let ar := ar ||| ((var.s &&& 1) <<< 4)
    let ar := ar ||| ((var.dpl &&& 3) <<< 5)
    let ar := ar ||| ((var.p &&& 1) <<< 7)
    let ar := ar ||| ((var.avl &&& 1) <<< 12)
    let ar := ar ||| ((var.l &&& 1) <<< 13)
    let ar := ar ||| ((var.db &&& 1) <<< 14)
    let ar := ar ||| ((var.g &&& 1) <<< 15)
    ar % 2 ^ 32

/-- `x86_read_segment_descriptor` (x86.c lines 50-73). `sel.index * 8` is an
`int` of at most `8191 * 8`, so neither the product nor its conversion to
`uint32_t` for the comparison wraps; `limit` is a `uint32_t`, `base` and the
address are 64-bit. Returns the boolean result, the output descriptor and the
CPU. -/
def x86_read_segment_descriptor (cpu : CPUState) (desc : x86_segment_descriptor)
    (sel : x68_segment_selector) : Bool × x86_segment_descriptor × CPUState :=
  let desc := ZERO_INIT_segment_descriptor desc
  if sel.index.val = 0 ∧ GDT_SEL = sel.ti.val then
    (false, desc, cpu)
  else
    let base :=
      if GDT_SEL = sel.ti.val then rvmcs cpu VmcsField.VMCS_GUEST_GDTR_BASE
      else rvmcs cpu VmcsField.VMCS_GUEST_LDTR_BASE
    let limit :=
      (if GDT_SEL = sel.ti.val then rvmcs cpu VmcsField.VMCS_GUEST_GDTR_LIMIT
       else rvmcs cpu VmcsField.VMCS_GUEST_LDTR_LIMIT) % 2 ^ 32
    if sel.index.val * 8 ≥ limit then
      (false, desc, cpu)
    else
      let r := vmx_read_mem cpu ((base + sel.index.val * 8) % 2 ^ 64) 8
      (true, ⟨r.1, by simp [r, vmx_read_mem, load_bytes]⟩, r.2)

/-- `x86_write_segment_descriptor` (x86.c lines 75-94). Returns the boolean
result and the CPU. -/
def x86_write_segment_descriptor (cpu : CPUState) (desc : x86_segment_descriptor)
    (sel : x68_segment_selector) : Bool × CPUState :=
  let base :=
    if GDT_SEL = sel.ti.val then rvmcs cpu VmcsField.VMCS_GUEST_GDTR_BASE
    else rvmcs cpu VmcsField.VMCS_GUEST_LDTR_BASE
  let limit :=
    (if GDT_SEL = sel.ti.val then rvmcs cpu VmcsField.VMCS_GUEST_GDTR_LIMIT
     else rvmcs cpu VmcsField.VMCS_GUEST_LDTR_LIMIT) % 2 ^ 32
  if sel.index.val * 8 ≥ limit then
    (false, cpu)
  else
    (true, vmx_write_mem cpu ((base + sel.index.val * 8) % 2 ^ 64) desc.bytes)

/-- The value of a C `int` expression, as a signed 32-bit integer
(two-complement wrap-around; signed overflow itself is undefined in C, and
no statement below relies on a wrapped value). -/
def int32 (x : Int) : Int :=
  (x + 2 ^ 31) % 2 ^ 32 - 2 ^ 31

/-- `x86_read_call_gate` (x86.c lines 96-109). `gate * 8` is an `int`
product; for the comparison with the `uint32_t` limit it is converted to
`uint32_t`, for the address it is converted to the 64-bit `addr_t`. Returns
the boolean result, the output call gate and the CPU. -/
def x86_read_call_gate (cpu : CPUState) (idt_desc : x86_call_gate) (gate : Int) :
    Bool × x86_call_gate × CPUState :=
  let base := rvmcs cpu VmcsField.VMCS_GUEST_IDTR_BASE
  let limit := rvmcs cpu VmcsField.VMCS_GUEST_IDTR_LIMIT % 2 ^ 32
  let idt_desc := ZERO_INIT_call_gate idt_desc
  let off := int32 (gate * 8)
  if (off % 2 ^ 32).toNat ≥ limit then
    (false, idt_desc, cpu)
  else
    let r := vmx_read_mem cpu (((base : Int) + off) % 2 ^ 64).toNat 8
    (true, ⟨r.1, by simp [r, vmx_read_mem, load_bytes]⟩, r.2)

/-- Modelled from the spec: the per-segment base field of the
control structure (the table `vmx_segment_fields`, not among the sources). -/
def vmx_segment_base_field : x86_reg_segment → VmcsField
  | x86_reg_segment.REG_SEG_ES => VmcsField.VMCS_GUEST_ES_BASE
  | x86_reg_segment.REG_SEG_CS => VmcsField.VMCS_GUEST_CS_BASE
  | x86_reg_segment.REG_SEG_SS => VmcsField.VMCS_GUEST_SS_BASE
  | x86_reg_segment.REG_SEG_DS => VmcsField.VMCS_GUEST_DS_BASE
  | x86_reg_segment.REG_SEG_FS => VmcsField.VMCS_GUEST_FS_BASE
  | x86_reg_segment.REG_SEG_GS => VmcsField.VMCS_GUEST_GS_BASE
  | x86_reg_segment.REG_SEG_LDTR => VmcsField.VMCS_GUEST_LDTR_BASE
  | x86_reg_segment.REG_SEG_TR => VmcsField.VMCS_GUEST_TR_BASE

/-- Modelled from the spec: `vmx_read_segment_base` (not among the sources)
returns the control structure's cached base field of the segment, a 64-bit
value; guest memory is not consulted. -/
def vmx_read_segment_base (cpu : CPUState) (seg : x86_reg_segment) : Nat :=
  rvmcs cpu (vmx_segment_base_field seg)

/-- `linear_addr` (x86.c lines 152-155): 64-bit addition. The argument `addr`
is an `addr_t`, hence reduced to 64 bits. -/
def linear_addr (cpu : CPUState) (addr : Nat) (seg : x86_reg_segment) : Nat :=
  (vmx_read_segment_base cpu seg + addr % 2 ^ 64) % 2 ^ 64

/-- `linear_addr_size` (x86.c lines 157-170). `size` is a C `int`. -/
def linear_addr_size (cpu : CPUState) (addr : Nat) (size : Int) (seg : x86_reg_segment) : Nat :=
  let addr := addr % 2 ^ 64
  let addr :=
    if size = 2 then addr % 2 ^ 16
    else if size = 4 then addr % 2 ^ 32
    else addr
  linear_addr cpu addr seg

/-- `linear_rip` (x86.c lines 172-175). -/
def linear_rip (cpu : CPUState) (rip : Nat) : Nat :=
  linear_addr cpu rip x86_reg_segment.REG_SEG_CS

/-- Modelled from the spec: `CR0_PE` (header `x86.h`, not among the sources)
is the mask of the protection-enable bit, bit 0 of CR0. -/
def CR0_PE : Nat := 1 <<< 0

/-- Modelled from the spec: `CR0_PG` (header `x86.h`, not among the sources)
is the mask of the paging-enable bit, bit 31 of CR0. -/
def CR0_PG : Nat := 1 <<< 31

/-- Modelled from the spec: `CR4_PAE` (header `x86.h`, not among the sources)
is the mask of the PAE-enable bit, bit 5 of CR4. -/
def CR4_PAE : Nat := 1 <<< 5

/-- Modelled from the spec: `EFER_LMA` (header `x86.h`, not among the
sources) is the mask of the long-mode-active bit, bit 10 of EFER. -/
def EFER_LMA : Nat := 1 <<< 10

/-- Modelled from the spec: `RFLAGS_VM` (header `x86.h`, not among the
sources) is the mask of the virtual-8086 flag, bit 17 of RFLAGS. -/
def RFLAGS_VM : Nat := 1 <<< 17

/-- Modelled from the spec: the accessor `RFLAGS(cpu)` (a macro of a header
that is not among the sources) gives the 64-bit flags register snapshot. -/
def RFLAGS (cpu : CPUState) : Nat :=
  cpu.rflags % 2 ^ 64

/-- `x86_is_protected` (x86.c lines 111-115). The function returns `bool`
(C99 `_Bool`), so the masked 64-bit value is converted by a non-zero test. -/
def x86_is_protected (cpu : CPUState) : Bool :=
  let cr0 := rvmcs cpu VmcsField.VMCS_GUEST_CR0
  decide (cr0 &&& CR0_PE ≠ 0)

/-- `x86_is_real` (x86.c lines 117-120). -/
def x86_is_real (cpu : CPUState) : Bool :=
  !x86_is_protected cpu

/-- `x86_is_v8086` (x86.c lines 122-125). -/
def x86_is_v8086 (cpu : CPUState) : Bool :=
  x86_is_protected cpu && decide (RFLAGS cpu &&& RFLAGS_VM ≠ 0)

/-- `x86_is_long_mode` (x86.c lines 127-130). -/
def x86_is_long_mode (cpu : CPUState) : Bool :=
  decide (rvmcs cpu VmcsField.VMCS_GUEST_IA32_EFER &&& EFER_LMA ≠ 0)

/-- Modelled from the spec: `struct vmx_segment` (not among the sources);
`x86.c` uses its field `ar` only, the access-rights word. -/
structure vmx_segment where
  ar : Nat
  deriving DecidableEq, Repr

/-- Modelled from the spec: the per-segment access-rights field of the
control structure (the table `vmx_segment_fields`, not among the sources). -/
def vmx_segment_ar_field : x86_reg_segment → VmcsField
  | x86_reg_segment.REG_SEG_ES => VmcsField.VMCS_GUEST_ES_ACCESS_RIGHTS
  | x86_reg_segment.REG_SEG_CS => VmcsField.VMCS_GUEST_CS_ACCESS_RIGHTS
  | x86_reg_segment.REG_SEG_SS => VmcsField.VMCS_GUEST_SS_ACCESS_RIGHTS
  | x86_reg_segment.REG_SEG_DS => VmcsField.VMCS_GUEST_DS_ACCESS_RIGHTS
  | x86_reg_segment.REG_SEG_FS => VmcsField.VMCS_GUEST_FS_ACCESS_RIGHTS
  | x86_reg_segment.REG_SEG_GS => VmcsField.VMCS_GUEST_GS_ACCESS_RIGHTS
  | x86_reg_segment.REG_SEG_LDTR => VmcsField.VMCS_GUEST_LDTR_ACCESS_RIGHTS
  | x86_reg_segment.REG_SEG_TR => VmcsField.VMCS_GUEST_TR_ACCESS_RIGHTS

/-- Modelled from the spec: `vmx_read_segment_descriptor` (not among the
sources). `x86.c` calls it with a segment register id to fill a
`struct vmx_segment` and tests no result; like `vmx_read_segment_base` it
takes the segment state that the control structure caches (spec section 3:
the access-rights word is the encoding used by the control structure's
segment-state fields), so `ar` is the access-rights field of the segment.
Neither a selector nor guest memory is consulted. Returns the filled
`vmx_segment` and the CPU, which is unchanged. -/
def vmx_read_segment_descriptor (cpu : CPUState) (seg : x86_reg_segment) :
    vmx_segment × CPUState :=
  ({ ar := rvmcs cpu (vmx_segment_ar_field seg) }, cpu)

/-- `x86_is_long64_mode` (x86.c lines 132-138). Returns the boolean result
and the CPU. -/
def x86_is_long64_mode (cpu : CPUState) : Bool × CPUState :=
  let r := vmx_read_segment_descriptor cpu x86_reg_segment.REG_SEG_CS
  let desc := r.1
  (x86_is_long_mode r.2 && decide ((desc.ar >>> 13) &&& 1 ≠ 0), r.2)

/-- `x86_is_paging_mode` (x86.c lines 140-144). -/
def x86_is_paging_mode (cpu : CPUState) : Bool :=
  let cr0 := rvmcs cpu VmcsField.VMCS_GUEST_CR0
  decide (cr0 &&& CR0_PG ≠ 0)

/-- `x86_is_pae_enabled` (x86.c lines 146-150). -/
def x86_is_pae_enabled (cpu : CPUState) : Bool :=
  let cr4 := rvmcs cpu VmcsField.VMCS_GUEST_CR4
  decide (cr4 &&& CR4_PAE ≠ 0)


/-! ## Names for the quantities the statements speak about -/

/-- The local variable `base` of `x86_read_segment_descriptor` and
`x86_write_segment_descriptor`: the base of the table the selector names. -/
def table_base (cpu : CPUState) (sel : x68_segment_selector) : Nat :=
  if GDT_SEL = sel.ti.val then rvmcs cpu VmcsField.VMCS_GUEST_GDTR_BASE
  else rvmcs cpu VmcsField.VMCS_GUEST_LDTR_BASE

/-- The local variable `limit` (a `uint32_t`) of `x86_read_segment_descriptor`
and `x86_write_segment_descriptor`: the limit of the table the selector
names. -/
def table_limit (cpu : CPUState) (sel : x68_segment_selector) : Nat :=
  (if GDT_SEL = sel.ti.val then rvmcs cpu VmcsField.VMCS_GUEST_GDTR_LIMIT
   else rvmcs cpu VmcsField.VMCS_GUEST_LDTR_LIMIT) % 2 ^ 32

/-- The 64-bit address `base + sel.index * 8` of the selected table slot. -/
def slot_addr (cpu : CPUState) (sel : x68_segment_selector) : Nat :=
  (table_base cpu sel + sel.index.val * 8) % 2 ^ 64

/-- The local variable `limit` (a `uint32_t`) of `x86_read_call_gate`. -/
def idt_limit (cpu : CPUState) : Nat :=
  rvmcs cpu VmcsField.VMCS_GUEST_IDTR_LIMIT % 2 ^ 32

/-- The 64-bit address `base + gate * 8` of a gate with non-negative index. -/
def gate_addr (cpu : CPUState) (gate : Nat) : Nat :=
  (rvmcs cpu VmcsField.VMCS_GUEST_IDTR_BASE + gate * 8) % 2 ^ 64

/-- Modelled from the spec: a 16-bit selector value split into its fields,
requested privilege level in bits 0-1, table indicator in bit 2, index in
bits 3-15. -/
def x68_segment_selector_of (v : Nat) : x68_segment_selector :=
  ⟨⟨(v / 8) % 8192, Nat.mod_lt _ (by decide)⟩, ⟨(v / 4) % 2, Nat.mod_lt _ (by decide)⟩,
   ⟨v % 4, Nat.mod_lt _ (by decide)⟩⟩

/-- The selector of the current code segment: the CS selector field of the
control structure, split into its fields. -/
def code_segment_selector (cpu : CPUState) : x68_segment_selector :=
  x68_segment_selector_of (rvmcs cpu VmcsField.VMCS_GUEST_CS_SELECTOR)

/-- The access-rights word of the current code segment: the field `ar` that
`vmx_read_segment_descriptor` fills for `REG_SEG_CS`. -/
def code_segment_ar (cpu : CPUState) : Nat :=
  (vmx_read_segment_descriptor cpu x86_reg_segment.REG_SEG_CS).1.ar

/-! ## Concrete inputs -/

/-- A CPU with GDTR base `0x1000` and limit `0x40`, LDTR base `0x2000` and
limit `1`, IDTR base `0x3000` and limit `0x10`, every other field 0, guest
memory holding at each address the low byte of that address, and no
guest-memory access made so far. -/
def sample_cpu : CPUState where
  vmcs := fun f =>
    match f with
    | VmcsField.VMCS_GUEST_GDTR_BASE => 0x1000
    | VmcsField.VMCS_GUEST_GDTR_LIMIT => 0x40
    | VmcsField.VMCS_GUEST_LDTR_BASE => 0x2000
    | VmcsField.VMCS_GUEST_LDTR_LIMIT => 1
    | VmcsField.VMCS_GUEST_IDTR_BASE => 0x3000
    | VmcsField.VMCS_GUEST_IDTR_LIMIT => 0x10
    | _ => 0
  rflags := 2
  mem := fun a => Fin.ofNat a
  accesses := []

/-- The global-table selector with index 2 (selector value `0x10`). -/
def sample_sel_gdt2 : x68_segment_selector := ⟨2, 0, 0⟩

/-- The global-table selector with index 8 (selector value `0x40`). -/
def sample_sel_gdt8 : x68_segment_selector := ⟨8, 0, 0⟩

/-- The null global-table selector with requested privilege level 3. -/
def sample_sel_null : x68_segment_selector := ⟨0, 0, 3⟩

/-- A present 64-bit code segment descriptor: type 11, s 1, dpl 0, p 1,
avl 0, l 1, db 0, g 1. -/
def sample_code_descriptor : x86_segment_descriptor :=
  ⟨[0xFF, 0xFF, 0, 0, 0, 0x9B, 0xAF, 0], rfl⟩

/-- A descriptor with every bit set except the present flag. -/
def sample_absent_descriptor : x86_segment_descriptor :=
  ⟨[0xFF, 0xFF, 0xFF, 0xFF, 0xFF, 0x7F, 0xFF, 0xFF], rfl⟩

/-- A call gate with every byte `0xFF` (stale content of an output buffer). -/
def sample_stale_gate : x86_call_gate :=
  ⟨[0xFF, 0xFF, 0xFF, 0xFF, 0xFF, 0xFF, 0xFF, 0xFF], rfl⟩

/-- A CPU in 64-bit long mode: CR0 has PE and PG set, CR4 has PAE set, EFER
has LME and LMA set, the flags register has the virtual-8086 flag set, the CS
selector is `0x10` (global table, index 2), the CS base is `2^64 - 1`, the
cached CS access rights are `0xA09B`, GDTR base is `0x1000` and limit `0x40`,
every other field is 0, and guest memory is zero except for the present
64-bit code segment descriptor stored at `0x1010`. -/
def sample_cpu_long : CPUState where
  vmcs := fun f =>
    match f with
    | VmcsField.VMCS_GUEST_GDTR_BASE => 0x1000
    | VmcsField.VMCS_GUEST_GDTR_LIMIT => 0x40
    | VmcsField.VMCS_GUEST_CR0 => 0x80000001
    | VmcsField.VMCS_GUEST_CR4 => 0x20
    | VmcsField.VMCS_GUEST_IA32_EFER => 0x500
    | VmcsField.VMCS_GUEST_CS_SELECTOR => 0x10
    | VmcsField.VMCS_GUEST_CS_BASE => 0xFFFFFFFFFFFFFFFF
    | VmcsField.VMCS_GUEST_CS_ACCESS_RIGHTS => 0xA09B
    | _ => 0
  rflags := 0x20002
  mem := store_bytes (fun _ => 0) 0x1010 [0xFF, 0xFF, 0, 0, 0, 0x9B, 0xAF, 0]
  accesses := []

/-- The CPU `sample_cpu_long` with another value in one control-structure
field. -/
def sample_cpu_long_with (field : VmcsField) (value : Nat) : CPUState :=
  { sample_cpu_long with
    vmcs := fun f => if f = field then value else sample_cpu_long.vmcs f }

/-- The CPU `sample_cpu_long` with the null CS selector (requested privilege
level 3) and cached CS access rights `0x809B` (bit 13 clear). -/
def sample_cpu_long_null_cs : CPUState :=
  { sample_cpu_long with
    vmcs := fun f =>
      if f = VmcsField.VMCS_GUEST_CS_SELECTOR then 3
      else if f = VmcsField.VMCS_GUEST_CS_ACCESS_RIGHTS then 0x809B
      else sample_cpu_long.vmcs f }

/-- The CPU `sample_cpu` with IDTR limit 1. -/
def sample_cpu_idt1 : CPUState :=
  { sample_cpu with
    vmcs := fun f =>
      if f = VmcsField.VMCS_GUEST_IDTR_LIMIT then 1 else sample_cpu.vmcs f }

/-- The local-table selector with index 0. -/
def sample_sel_ldt0 : x68_segment_selector := ⟨0, 1, 0⟩

/-- A present descriptor with the flag fields of `sample_code_descriptor`
and other base and limit bits. -/
def sample_code_descriptor_moved : x86_segment_descriptor :=
  ⟨[0x34, 0x12, 0x78, 0x56, 0x9A, 0x9B, 0xA5, 0xBC], rfl⟩

/-- A present descriptor that differs from `sample_code_descriptor` in the
type field only (type 10 instead of 11). -/
def sample_code_descriptor_type10 : x86_segment_descriptor :=
  ⟨[0xFF, 0xFF, 0, 0, 0, 0x9A, 0xAF, 0], rfl⟩

/-! ## Bit-level helper lemmas -/

theorem or_shiftLeft_eq_add (a b k : Nat) (h : a < 2 ^ k) :
    a ||| (b <<< k) = a + b * 2 ^ k := by
  rw [Nat.shiftLeft_eq, Nat.or_comm, Nat.mul_comm b, ← Nat.mul_add_lt_is_or h]
  omega

theorem and_mask_of_lt (a k : Nat) (h : a < 2 ^ k) : a &&& (2 ^ k - 1) = a := by
  rw [Nat.and_pow_two_sub_one_eq_mod, Nat.mod_eq_of_lt h]

theorem bits_lt (d : x86_segment_descriptor) (off w : Nat) : d.bits off w < 2 ^ w := by
  unfold x86_segment_descriptor.bits
  exact Nat.mod_lt _ (Nat.two_pow_pos w)

/-- The access-rights word of a present descriptor as a sum of its fields. -/
theorem access_rights_present_sum (var : x86_segment_descriptor) (hp : var.p ≠ 0) :
    x86_segment_access_rights var
      = var.type + var.s * 16 + var.dpl * 32 + 128 + var.avl * 4096 + var.l * 8192
        + var.db * 16384 + var.g * 32768 := by
  have ht : var.type < 2 ^ 4 := bits_lt var 40 4
  have hs : var.s < 2 ^ 1 := bits_lt var 44 1
  have hd : var.dpl < 2 ^ 2 := bits_lt var 45 2
  have hp1 : var.p < 2 ^ 1 := bits_lt var 47 1
  have ha : var.avl < 2 ^ 1 := bits_lt var 52 1
  have hl : var.l < 2 ^ 1 := bits_lt var 53 1
  have hb : var.db < 2 ^ 1 := bits_lt var 54 1
  have hg : var.g < 2 ^ 1 := bits_lt var 55 1
  have hp2 : var.p = 1 := by omega
  have m15 : var.type &&& 15 = var.type := and_mask_of_lt var.type 4 ht
  have m3 : var.dpl &&& 3 = var.dpl := and_mask_of_lt var.dpl 2 hd
  have m1 : ∀ x : Nat, x < 2 ^ 1 → x &&& 1 = x := fun x hx => and_mask_of_lt x 1 hx
  unfold x86_segment_access_rights
  rw [if_neg hp]
  have m11 : (1 : Nat) &&& 1 = 1 := by decide
  simp only [hp2, m15, m3, m1 _ hs, m1 _ ha, m1 _ hl, m1 _ hb, m1 _ hg, m11]
  rw [or_shiftLeft_eq_add _ _ 4 ht]
  rw [or_shiftLeft_eq_add _ _ 5 (by omega)]
  rw [or_shiftLeft_eq_add _ _ 7 (by omega)]
  rw [or_shiftLeft_eq_add _ _ 12 (by omega)]
  rw [or_shiftLeft_eq_add _ _ 13 (by omega)]
  rw [or_shiftLeft_eq_add _ _ 14 (by omega)]
  rw [or_shiftLeft_eq_add _ _ 15 (by omega)]
  omega


/-! ## Guest memory as a byte store -/

theorem store_bytes_other (bs : List Byte) (mem : Nat → Byte) (addr x : Nat)
    (hx : ∀ i, i < bs.length → x ≠ (addr + i) % 2 ^ 64) :
    store_bytes mem addr bs x = mem x := by
  induction bs generalizing mem addr with
  | nil => rfl
  | cons b bs ih =>
    simp only [store_bytes]
    rw [ih]
    · have h0 := hx 0 (by simp)
      simp only [Nat.add_zero] at h0
      exact if_neg h0
    · intro i hi
      have := hx (i + 1) (by simpa using hi)
      rwa [Nat.add_assoc, Nat.add_comm 1 i]

theorem store_bytes_at (bs : List Byte) (mem : Nat → Byte) (addr i : Nat)
    (hlen : bs.length ≤ 2 ^ 64) (hi : i < bs.length) :
    store_bytes mem addr bs ((addr + i) % 2 ^ 64) = bs.get ⟨i, hi⟩ := by
  induction bs generalizing mem addr i with
  | nil => simp at hi
  | cons b bs ih =>
    simp only [store_bytes]
    cases i with
    | zero =>
      rw [store_bytes_other]
      · simp
      · intro j hj
        simp only [List.length_cons] at hlen
        omega
    | succ k =>
      simp only [List.length_cons] at hlen hi
      have := ih (fun x => if x = addr % 2 ^ 64 then b else mem x) (addr + 1) k (by omega)
        (by omega)
      rw [Nat.add_assoc, Nat.add_comm 1 k] at this
      simpa using this

theorem read_store_bytes (bs : List Byte) (mem : Nat → Byte) (addr : Nat)
    (hlen : bs.length ≤ 2 ^ 64) :
    (List.range bs.length).map (fun i => store_bytes mem addr bs ((addr + i) % 2 ^ 64)) = bs := by
  apply List.ext_get
  · simp
  · intro n h1 h2
    simp only [List.get_eq_getElem, List.getElem_map, List.getElem_range]
    have := store_bytes_at bs mem addr n hlen h2
    simpa using this


/-! ## Descriptor table reads and writes, unfolded -/

theorem segment_descriptor_eq_of_bytes {a b : x86_segment_descriptor}
    (h : a.bytes = b.bytes) : a = b := by
  cases a; cases b; cases h; rfl

theorem call_gate_eq_of_bytes {a b : x86_call_gate} (h : a.bytes = b.bytes) : a = b := by
  cases a; cases b; cases h; rfl

theorem read_segment_descriptor_null (cpu : CPUState) (desc : x86_segment_descriptor)
    (sel : x68_segment_selector) (h : sel.index.val = 0 ∧ GDT_SEL = sel.ti.val) :
    x86_read_segment_descriptor cpu desc sel
      = (false, ZERO_INIT_segment_descriptor desc, cpu) := by
  unfold x86_read_segment_descriptor
  simp only [if_pos h]

theorem read_segment_descriptor_limit (cpu : CPUState) (desc : x86_segment_descriptor)
    (sel : x68_segment_selector) (h : table_limit cpu sel ≤ sel.index.val * 8) :
    x86_read_segment_descriptor cpu desc sel
      = (false, ZERO_INIT_segment_descriptor desc, cpu) := by
  unfold x86_read_segment_descriptor
  by_cases hn : sel.index.val = 0 ∧ GDT_SEL = sel.ti.val
  · simp only [if_pos hn]
  · have h2 : sel.index.val * 8 ≥ table_limit cpu sel := h
    unfold table_limit at h2
    simp only [if_neg hn, if_pos h2]

theorem read_segment_descriptor_ok (cpu : CPUState) (desc : x86_segment_descriptor)
    (sel : x68_segment_selector) (hn : ¬ (sel.index.val = 0 ∧ GDT_SEL = sel.ti.val))
    (h : sel.index.val * 8 < table_limit cpu sel) :
    (x86_read_segment_descriptor cpu desc sel).1 = true
      ∧ (x86_read_segment_descriptor cpu desc sel).2.1.bytes
          = load_bytes cpu.mem (slot_addr cpu sel) 8
      ∧ (x86_read_segment_descriptor cpu desc sel).2.2
          = { cpu with accesses := cpu.accesses ++ [MemAccess.read (slot_addr cpu sel) 8] } := by
  have h2 : ¬ (sel.index.val * 8 ≥ table_limit cpu sel) := Nat.not_le.mpr h
  unfold table_limit at h2
  unfold x86_read_segment_descriptor
  simp only [if_neg hn, if_neg h2]
  exact ⟨trivial, rfl, rfl⟩

theorem write_segment_descriptor_limit (cpu : CPUState) (desc : x86_segment_descriptor)
    (sel : x68_segment_selector) (h : table_limit cpu sel ≤ sel.index.val * 8) :
    x86_write_segment_descriptor cpu desc sel = (false, cpu) := by
  have h2 : sel.index.val * 8 ≥ table_limit cpu sel := h
  unfold table_limit at h2
  unfold x86_write_segment_descriptor
  simp only [if_pos h2]

theorem write_segment_descriptor_ok (cpu : CPUState) (desc : x86_segment_descriptor)
    (sel : x68_segment_selector) (h : sel.index.val * 8 < table_limit cpu sel) :
    x86_write_segment_descriptor cpu desc sel
      = (true, vmx_write_mem cpu (slot_addr cpu sel) desc.bytes) := by
  have h2 : ¬ (sel.index.val * 8 ≥ table_limit cpu sel) := Nat.not_le.mpr h
  unfold table_limit at h2
  unfold x86_write_segment_descriptor
  simp only [if_neg h2]
  rfl

theorem table_limit_write_mem (cpu : CPUState) (addr : Nat) (data : List Byte)
    (sel : x68_segment_selector) :
    table_limit (vmx_write_mem cpu addr data) sel = table_limit cpu sel := rfl

theorem slot_addr_write_mem (cpu : CPUState) (addr : Nat) (data : List Byte)
    (sel : x68_segment_selector) :
    slot_addr (vmx_write_mem cpu addr data) sel = slot_addr cpu sel := rfl


/-! ## Descriptor table reader and writer -/

/-- C1 as stated fails: on the CPU with GDTR limit `0x40`, writing a
descriptor through the null global-table selector returns true, and the
following read through the same selector returns false and yields the zero
descriptor instead of the one written. -/
theorem c1_round_trip_counterexample :
    (x86_write_segment_descriptor sample_cpu sample_code_descriptor sample_sel_null).1 = true
      ∧ (x86_read_segment_descriptor
          (x86_write_segment_descriptor sample_cpu sample_code_descriptor sample_sel_null).2
          sample_absent_descriptor sample_sel_null).1 = false
      ∧ (x86_read_segment_descriptor
          (x86_write_segment_descriptor sample_cpu sample_code_descriptor sample_sel_null).2
          sample_absent_descriptor sample_sel_null).2.1 ≠ sample_code_descriptor := by
  decide

/-- C1 (amended): for every CPU state, every descriptor D, every prior
content of the output buffer and every selector other than the global-table
selector with index 0, if `x86_write_segment_descriptor` returns true then
`x86_read_segment_descriptor` with the same selector on the resulting CPU
returns true and yields a descriptor equal to D byte for byte. -/
theorem c1_round_trip (cpu : CPUState) (D desc0 : x86_segment_descriptor)
    (sel : x68_segment_selector)
    (hsel : ¬ (sel.index.val = 0 ∧ sel.ti.val = GDT_SEL))
    (hw : (x86_write_segment_descriptor cpu D sel).1 = true) :
    (x86_read_segment_descriptor (x86_write_segment_descriptor cpu D sel).2 desc0 sel).1 = true
      ∧ (x86_read_segment_descriptor
          (x86_write_segment_descriptor cpu D sel).2 desc0 sel).2.1 = D := by
  have hlim : sel.index.val * 8 < table_limit cpu sel := by
    by_contra hc
    rw [write_segment_descriptor_limit cpu D sel (Nat.not_lt.mp hc)] at hw
    exact Bool.noConfusion hw
  have hn : ¬ (sel.index.val = 0 ∧ GDT_SEL = sel.ti.val) := fun h => hsel ⟨h.1, h.2.symm⟩
  rw [write_segment_descriptor_ok cpu D sel hlim]
  have hr := read_segment_descriptor_ok (vmx_write_mem cpu (slot_addr cpu sel) D.bytes) desc0 sel
    hn (by rw [table_limit_write_mem]; exact hlim)
  refine ⟨hr.1, segment_descriptor_eq_of_bytes ?_⟩
  rw [hr.2.1, slot_addr_write_mem]
  have hlen : D.bytes.length ≤ 2 ^ 64 := by rw [D.size_eq]; decide
  have := read_store_bytes D.bytes cpu.mem (slot_addr cpu sel) hlen
  rw [D.size_eq] at this
  exact this

/-- C1 (amended) at GDTR base `0x1000`, limit `0x40`, global selector index 2:
the descriptor written is read back unchanged. -/
theorem c1_round_trip_witness :
    (x86_read_segment_descriptor
        (x86_write_segment_descriptor sample_cpu sample_code_descriptor sample_sel_gdt2).2
        sample_absent_descriptor sample_sel_gdt2).1 = true
      ∧ (x86_read_segment_descriptor
          (x86_write_segment_descriptor sample_cpu sample_code_descriptor sample_sel_gdt2).2
          sample_absent_descriptor sample_sel_gdt2).2.1 = sample_code_descriptor :=
  c1_round_trip sample_cpu sample_code_descriptor sample_absent_descriptor sample_sel_gdt2
    (by decide) (by decide)

/-- C2: for every CPU state, every prior content of the output buffer and
every selector that is not the global-table selector with index 0 and whose
index*8 is strictly below the limit of the table it names,
`x86_read_segment_descriptor` returns true, the descriptor is exactly the 8
guest-memory bytes at base + index*8 of that table, and the only effect on
the CPU is that one 8-byte read at that address is recorded. -/
theorem c2_read_in_bounds (cpu : CPUState) (desc : x86_segment_descriptor)
    (sel : x68_segment_selector)
    (hsel : ¬ (sel.index.val = 0 ∧ sel.ti.val = GDT_SEL))
    (hlim : sel.index.val * 8 < table_limit cpu sel) :
    (x86_read_segment_descriptor cpu desc sel).1 = true
      ∧ (x86_read_segment_descriptor cpu desc sel).2.1.bytes
          = load_bytes cpu.mem (slot_addr cpu sel) 8
      ∧ (x86_read_segment_descriptor cpu desc sel).2.2
          = { cpu with accesses := cpu.accesses ++ [MemAccess.read (slot_addr cpu sel) 8] } :=
  read_segment_descriptor_ok cpu desc sel (fun h => hsel ⟨h.1, h.2.symm⟩) hlim

/-- C2 at GDTR base `0x1000`, limit `0x40`, global selector index 2: the read
returns true with the 8 bytes at `0x1010` .. `0x1017`; and the local-table
selector with index 0 is read as well (LDTR base `0x2000`, limit 1). -/
theorem c2_read_in_bounds_witness :
    slot_addr sample_cpu sample_sel_gdt2 = 0x1010
      ∧ (x86_read_segment_descriptor sample_cpu sample_absent_descriptor sample_sel_gdt2).1 = true
      ∧ (x86_read_segment_descriptor sample_cpu sample_absent_descriptor sample_sel_gdt2).2.1.bytes
          = [0x10, 0x11, 0x12, 0x13, 0x14, 0x15, 0x16, 0x17]
      ∧ (x86_read_segment_descriptor sample_cpu sample_absent_descriptor ⟨0, 1, 0⟩).1 = true :=
  ⟨by decide,
   (c2_read_in_bounds sample_cpu sample_absent_descriptor sample_sel_gdt2
      (by decide) (by decide)).1,
   (c2_read_in_bounds sample_cpu sample_absent_descriptor sample_sel_gdt2
      (by decide) (by decide)).2.1.trans (by decide),
   (c2_read_in_bounds sample_cpu sample_absent_descriptor ⟨0, 1, 0⟩
      (by decide) (by decide)).1⟩

/-- C3: for every CPU state and every selector with index*8 >= the limit of
the table it names, both `x86_read_segment_descriptor` and
`x86_write_segment_descriptor` return false and leave the CPU exactly as it
was: no guest-memory accessor call is recorded and every byte of guest memory
is unchanged. -/
theorem c3_limit_exceeded (cpu : CPUState) (desc : x86_segment_descriptor)
    (sel : x68_segment_selector) (hlim : table_limit cpu sel ≤ sel.index.val * 8) :
    (x86_read_segment_descriptor cpu desc sel).1 = false
      ∧ (x86_read_segment_descriptor cpu desc sel).2.2 = cpu
      ∧ (x86_read_segment_descriptor cpu desc sel).2.2.accesses = cpu.accesses
      ∧ (x86_write_segment_descriptor cpu desc sel).1 = false
      ∧ (x86_write_segment_descriptor cpu desc sel).2 = cpu
      ∧ (x86_write_segment_descriptor cpu desc sel).2.accesses = cpu.accesses
      ∧ (∀ a, (x86_write_segment_descriptor cpu desc sel).2.mem a = cpu.mem a) := by
  rw [read_segment_descriptor_limit cpu desc sel hlim,
    write_segment_descriptor_limit cpu desc sel hlim]
  exact ⟨rfl, rfl, rfl, rfl, rfl, rfl, fun _ => rfl⟩

/-- C3 at the boundary: limit `0x40`, global selector index 8 (8*8 = 64 =
limit): read and write both fail, and no accessor call is recorded. -/
theorem c3_limit_exceeded_witness :
    table_limit sample_cpu sample_sel_gdt8 = 8 * 8
      ∧ (x86_read_segment_descriptor sample_cpu sample_code_descriptor sample_sel_gdt8).1 = false
      ∧ (x86_write_segment_descriptor sample_cpu sample_code_descriptor sample_sel_gdt8).1 = false
      ∧ (x86_write_segment_descriptor sample_cpu sample_code_descriptor
          sample_sel_gdt8).2.accesses = [] :=
  ⟨by decide,
   (c3_limit_exceeded sample_cpu sample_code_descriptor sample_sel_gdt8 (by decide)).1,
   (c3_limit_exceeded sample_cpu sample_code_descriptor sample_sel_gdt8 (by decide)).2.2.2.1,
   (c3_limit_exceeded sample_cpu sample_code_descriptor sample_sel_gdt8 (by decide)).2.2.2.2.2.1⟩

/-- C4: for every CPU state (whatever the GDTR base and limit are) and every
selector with table indicator global and index 0 (any requested privilege
level), `x86_read_segment_descriptor` returns false and leaves the CPU as it
was: the journal of guest-memory accessor calls is unchanged, so the count of
accessor calls made by the read is 0. -/
theorem c4_null_selector (cpu : CPUState) (desc : x86_segment_descriptor)
    (sel : x68_segment_selector) (hti : sel.ti.val = GDT_SEL) (hidx : sel.index.val = 0) :
    (x86_read_segment_descriptor cpu desc sel).1 = false
      ∧ (x86_read_segment_descriptor cpu desc sel).2.2 = cpu
      ∧ (x86_read_segment_descriptor cpu desc sel).2.2.accesses = cpu.accesses
      ∧ (x86_read_segment_descriptor cpu desc sel).2.2.accesses.length
          = cpu.accesses.length := by
  rw [read_segment_descriptor_null cpu desc sel ⟨hidx, hti.symm⟩]
  exact ⟨rfl, rfl, rfl, rfl⟩

/-- C4 at the null global-table selector with requested privilege level 3,
GDTR limit `0x40`, on a CPU with no accessor call made before: the read
fails and the call count is 0. -/
theorem c4_null_selector_witness :
    (x86_read_segment_descriptor sample_cpu sample_code_descriptor sample_sel_null).1 = false
      ∧ (x86_read_segment_descriptor sample_cpu sample_code_descriptor
          sample_sel_null).2.2.accesses.length = 0 :=
  ⟨(c4_null_selector sample_cpu sample_code_descriptor sample_sel_null (by decide)
      (by decide)).1,
   (c4_null_selector sample_cpu sample_code_descriptor sample_sel_null (by decide)
      (by decide)).2.2.2⟩


/-! ## Access rights -/

/-- C5: for a descriptor whose present flag is set, the access-rights word
is exactly type | s<<4 | dpl<<5 | 1<<7 | avl<<12 | l<<13 | db<<14 | g<<15:
every named field sits at its stated bit position, and bits 8-11 and all
bits from 16 upwards are zero. -/
theorem c5_access_rights_present (var : x86_segment_descriptor) (hp : var.p ≠ 0) :
    x86_segment_access_rights var
        = (var.type ||| (var.s <<< 4) ||| (var.dpl <<< 5) ||| (1 <<< 7) ||| (var.avl <<< 12)
            ||| (var.l <<< 13) ||| (var.db <<< 14) ||| (var.g <<< 15))
      ∧ x86_segment_access_rights var % 2 ^ 4 = var.type
      ∧ x86_segment_access_rights var / 2 ^ 4 % 2 = var.s
      ∧ x86_segment_access_rights var / 2 ^ 5 % 2 ^ 2 = var.dpl
      ∧ x86_segment_access_rights var / 2 ^ 7 % 2 = 1
      ∧ x86_segment_access_rights var / 2 ^ 8 % 2 ^ 4 = 0
      ∧ x86_segment_access_rights var / 2 ^ 12 % 2 = var.avl
      ∧ x86_segment_access_rights var / 2 ^ 13 % 2 = var.l
      ∧ x86_segment_access_rights var / 2 ^ 14 % 2 = var.db
      ∧ x86_segment_access_rights var / 2 ^ 15 % 2 = var.g
      ∧ x86_segment_access_rights var / 2 ^ 16 = 0 := by
  have ht : var.type < 2 ^ 4 := bits_lt var 40 4
  have hs : var.s < 2 ^ 1 := bits_lt var 44 1
  have hd : var.dpl < 2 ^ 2 := bits_lt var 45 2
  have ha : var.avl < 2 ^ 1 := bits_lt var 52 1
  have hl : var.l < 2 ^ 1 := bits_lt var 53 1
  have hb : var.db < 2 ^ 1 := bits_lt var 54 1
  have hg : var.g < 2 ^ 1 := bits_lt var 55 1
  have hsum := access_rights_present_sum var hp
  refine ⟨?_, ?_⟩
  · rw [hsum, or_shiftLeft_eq_add _ _ 4 ht, or_shiftLeft_eq_add _ _ 5 (by omega),
      or_shiftLeft_eq_add _ _ 7 (by omega), or_shiftLeft_eq_add _ _ 12 (by omega),
      or_shiftLeft_eq_add _ _ 13 (by omega), or_shiftLeft_eq_add _ _ 14 (by omega),
      or_shiftLeft_eq_add _ _ 15 (by omega)]
    omega
  · rw [hsum]
    omega

/-- C5 at a present 64-bit code segment descriptor: the word is `0xA09B`. -/
theorem c5_access_rights_present_witness :
    sample_code_descriptor.p ≠ 0 ∧ x86_segment_access_rights sample_code_descriptor = 0xA09B :=
  ⟨by decide, (c5_access_rights_present sample_code_descriptor (by decide)).1.trans (by decide)⟩

/-- C6: for a descriptor whose present flag is clear, the access-rights word
is exactly `0x10000`, whatever the other bits of the descriptor are. -/
theorem c6_access_rights_absent (var : x86_segment_descriptor) (hp : var.p = 0) :
    x86_segment_access_rights var = 0x10000 := by
  unfold x86_segment_access_rights
  rw [if_pos hp]
  decide

/-- C6 at a descriptor with every bit set except the present flag. -/
theorem c6_access_rights_absent_witness :
    sample_absent_descriptor.p = 0
      ∧ sample_absent_descriptor.type = 15 ∧ sample_absent_descriptor.g = 1
      ∧ x86_segment_access_rights sample_absent_descriptor = 0x10000 :=
  ⟨by decide, by decide, by decide, c6_access_rights_absent sample_absent_descriptor (by decide)⟩


/-! ## Descriptor table writer: frame, and failed reads -/

/-- C7: `x86_write_segment_descriptor` returns true exactly when index*8 is
below the limit of the selected table (the comparison the read makes, so for
every selector but the null global one read and write agree); in that case
the 8 bytes at base + index*8 become the bytes of D, every other
guest-memory byte and every control-structure field is unchanged, and one
8-byte write is recorded; otherwise it returns false and the CPU, guest
memory included, is entirely unchanged. -/
theorem c7_write_frame (cpu : CPUState) (D : x86_segment_descriptor)
    (sel : x68_segment_selector) :
    ((x86_write_segment_descriptor cpu D sel).1 = true
        ↔ sel.index.val * 8 < table_limit cpu sel)
      ∧ (sel.index.val * 8 < table_limit cpu sel →
          load_bytes (x86_write_segment_descriptor cpu D sel).2.mem (slot_addr cpu sel) 8
              = D.bytes
            ∧ (∀ x, (∀ i, i < 8 → x ≠ (slot_addr cpu sel + i) % 2 ^ 64) →
                (x86_write_segment_descriptor cpu D sel).2.mem x = cpu.mem x)
            ∧ (x86_write_segment_descriptor cpu D sel).2.vmcs = cpu.vmcs
            ∧ (x86_write_segment_descriptor cpu D sel).2.rflags = cpu.rflags
            ∧ (x86_write_segment_descriptor cpu D sel).2.accesses
                = cpu.accesses ++ [MemAccess.write (slot_addr cpu sel) 8])
      ∧ (¬ sel.index.val * 8 < table_limit cpu sel →
          (x86_write_segment_descriptor cpu D sel).1 = false
            ∧ (x86_write_segment_descriptor cpu D sel).2 = cpu)
      ∧ (∀ desc0, ¬ (sel.index.val = 0 ∧ sel.ti.val = GDT_SEL) →
          (x86_read_segment_descriptor cpu desc0 sel).1
            = (x86_write_segment_descriptor cpu D sel).1) := by
  by_cases hlim : sel.index.val * 8 < table_limit cpu sel
  · have hw := write_segment_descriptor_ok cpu D sel hlim
    refine ⟨?_, ?_, fun hc => absurd hlim hc, ?_⟩
    · rw [hw]; exact ⟨fun _ => hlim, fun _ => rfl⟩
    · intro _
      rw [hw]
      refine ⟨?_, ?_, rfl, rfl, ?_⟩
      · have hlen : D.bytes.length ≤ 2 ^ 64 := by rw [D.size_eq]; decide
        have := read_store_bytes D.bytes cpu.mem (slot_addr cpu sel) hlen
        rw [D.size_eq] at this
        exact this
      · intro x hx
        exact store_bytes_other D.bytes cpu.mem (slot_addr cpu sel) x
          (fun i hi => hx i (by rw [D.size_eq] at hi; exact hi))
      · show cpu.accesses ++ [MemAccess.write (slot_addr cpu sel) D.bytes.length] = _
        rw [D.size_eq]
    · intro desc0 hsel
      rw [hw, (read_segment_descriptor_ok cpu desc0 sel
        (fun h => hsel ⟨h.1, h.2.symm⟩) hlim).1]
  · have hw := write_segment_descriptor_limit cpu D sel (Nat.not_lt.mp hlim)
    refine ⟨?_, fun hc => absurd hc hlim, fun _ => ?_, ?_⟩
    · rw [hw]; exact ⟨fun h => Bool.noConfusion h, fun h => absurd h hlim⟩
    · rw [hw]; exact ⟨rfl, rfl⟩
    · intro desc0 _
      rw [hw, read_segment_descriptor_limit cpu desc0 sel (Nat.not_lt.mp hlim)]

/-- C7 at GDTR base `0x1000`, limit `0x40`: a write through global selector
index 2 succeeds and changes bytes `0x1010` .. `0x1017` only (the bytes at
`0x100F` and `0x1018` keep their values); a write through index 8 fails. -/
theorem c7_write_frame_witness :
    (x86_write_segment_descriptor sample_cpu sample_code_descriptor sample_sel_gdt2).1 = true
      ∧ load_bytes
          (x86_write_segment_descriptor sample_cpu sample_code_descriptor sample_sel_gdt2).2.mem
          0x1010 8 = sample_code_descriptor.bytes
      ∧ (x86_write_segment_descriptor sample_cpu sample_code_descriptor
          sample_sel_gdt2).2.mem 0x100F = 0x0F
      ∧ (x86_write_segment_descriptor sample_cpu sample_code_descriptor
          sample_sel_gdt2).2.mem 0x1018 = 0x18
      ∧ (x86_write_segment_descriptor sample_cpu sample_code_descriptor sample_sel_gdt8).1
          = false :=
  ⟨(c7_write_frame sample_cpu sample_code_descriptor sample_sel_gdt2).1.mpr (by decide),
   ((c7_write_frame sample_cpu sample_code_descriptor sample_sel_gdt2).2.1 (by decide)).1,
   by decide, by decide,
   ((c7_write_frame sample_cpu sample_code_descriptor sample_sel_gdt8).2.2.1 (by decide)).1⟩

/-- C8: a failed read never returns stale bytes: whatever the CPU state, the
input and the prior content of the output buffer, when
`x86_read_segment_descriptor` returns false the output descriptor has all 8
bytes 0, and when `x86_read_call_gate` returns false the output call gate
has all 8 bytes 0. -/
theorem c8_failed_read_zero (cpu : CPUState) (desc : x86_segment_descriptor)
    (sel : x68_segment_selector) (idt_desc : x86_call_gate) (gate : Int) :
    ((x86_read_segment_descriptor cpu desc sel).1 = false →
        (x86_read_segment_descriptor cpu desc sel).2.1.bytes = [0, 0, 0, 0, 0, 0, 0, 0])
      ∧ ((x86_read_call_gate cpu idt_desc gate).1 = false →
        (x86_read_call_gate cpu idt_desc gate).2.1.bytes = [0, 0, 0, 0, 0, 0, 0, 0]) := by
  constructor
  · intro h
    by_cases hn : sel.index.val = 0 ∧ GDT_SEL = sel.ti.val
    · rw [read_segment_descriptor_null cpu desc sel hn]; rfl
    · by_cases hlim : sel.index.val * 8 < table_limit cpu sel
      · rw [(read_segment_descriptor_ok cpu desc sel hn hlim).1] at h
        exact Bool.noConfusion h
      · rw [read_segment_descriptor_limit cpu desc sel (Nat.not_lt.mp hlim)]; rfl
  · intro h
    unfold x86_read_call_gate at h ⊢
    by_cases hc : (int32 (gate * 8) % 2 ^ 32).toNat
        ≥ rvmcs cpu VmcsField.VMCS_GUEST_IDTR_LIMIT % 2 ^ 32
    · simp only [if_pos hc]; rfl
    · simp only [if_neg hc] at h
      exact Bool.noConfusion h

/-- C8 at two failing reads into output buffers full of stale non-zero
bytes: the null global selector, and gate 2 against IDTR limit `0x10`. -/
theorem c8_failed_read_zero_witness :
    (x86_read_segment_descriptor sample_cpu sample_absent_descriptor sample_sel_null).2.1.bytes
        = [0, 0, 0, 0, 0, 0, 0, 0]
      ∧ (x86_read_call_gate sample_cpu sample_stale_gate 2).2.1.bytes
        = [0, 0, 0, 0, 0, 0, 0, 0] :=
  ⟨(c8_failed_read_zero sample_cpu sample_absent_descriptor sample_sel_null
      sample_stale_gate 2).1 (by decide),
   (c8_failed_read_zero sample_cpu sample_absent_descriptor sample_sel_null
      sample_stale_gate 2).2 (by decide)⟩


/-! ## Call gates -/

theorem int32_gate_offset (g : Nat) (h : g * 8 < 2 ^ 31) :
    int32 ((g : Int) * 8) = ((g * 8 : Nat) : Int) := by
  unfold int32
  push_cast
  omega

theorem read_call_gate_limit (cpu : CPUState) (idt_desc : x86_call_gate) (g : Nat)
    (h : g * 8 < 2 ^ 31) (hlim : idt_limit cpu ≤ g * 8) :
    x86_read_call_gate cpu idt_desc (g : Int) = (false, ZERO_INIT_call_gate idt_desc, cpu) := by
  have hoff := int32_gate_offset g h
  unfold x86_read_call_gate
  simp only [hoff]
  have hc : (((g * 8 : Nat) : Int) % 2 ^ 32).toNat
      ≥ rvmcs cpu VmcsField.VMCS_GUEST_IDTR_LIMIT % 2 ^ 32 := by
    unfold idt_limit at hlim
    omega
  simp only [if_pos hc]

theorem read_call_gate_ok (cpu : CPUState) (idt_desc : x86_call_gate) (g : Nat)
    (h : g * 8 < 2 ^ 31) (hlim : g * 8 < idt_limit cpu) :
    (x86_read_call_gate cpu idt_desc (g : Int)).1 = true
      ∧ (x86_read_call_gate cpu idt_desc (g : Int)).2.1.bytes
          = load_bytes cpu.mem (gate_addr cpu g) 8
      ∧ (x86_read_call_gate cpu idt_desc (g : Int)).2.2
          = { cpu with accesses := cpu.accesses ++ [MemAccess.read (gate_addr cpu g) 8] } := by
  have hoff := int32_gate_offset g h
  unfold x86_read_call_gate
  simp only [hoff]
  have hc : ¬ ((((g * 8 : Nat) : Int) % 2 ^ 32).toNat
      ≥ rvmcs cpu VmcsField.VMCS_GUEST_IDTR_LIMIT % 2 ^ 32) := by
    unfold idt_limit at hlim
    omega
  have ha : ((((rvmcs cpu VmcsField.VMCS_GUEST_IDTR_BASE : Nat) : Int)
      + ((g * 8 : Nat) : Int)) % 2 ^ 64).toNat = gate_addr cpu g := by
    unfold gate_addr
    omega
  simp only [if_neg hc, ha]
  exact ⟨trivial, rfl, rfl⟩

/-- C9: `x86_read_call_gate` uses the IDTR base and limit only and checks the
gate the way a segment read checks its slot: for every CPU state and every
gate index g >= 0 with g*8 representable as a 32-bit int, it returns true
exactly when g*8 is below the IDTR limit, and then the call gate is the 8
guest-memory bytes at IDTR base + g*8 (one 8-byte read recorded); otherwise
it returns false without any guest-memory access. Two CPUs that agree on the
IDTR base, the IDTR limit and guest memory give the same result and the same
call gate, whatever their GDTR, LDTR and other fields are. -/
theorem c9_read_call_gate (cpu : CPUState) (idt_desc : x86_call_gate) (g : Nat)
    (hrep : g * 8 < 2 ^ 31) :
    ((x86_read_call_gate cpu idt_desc (g : Int)).1 = true ↔ g * 8 < idt_limit cpu)
      ∧ (g * 8 < idt_limit cpu →
          (x86_read_call_gate cpu idt_desc (g : Int)).2.1.bytes
              = load_bytes cpu.mem (gate_addr cpu g) 8
            ∧ (x86_read_call_gate cpu idt_desc (g : Int)).2.2
              = { cpu with
                  accesses := cpu.accesses ++ [MemAccess.read (gate_addr cpu g) 8] })
      ∧ (¬ g * 8 < idt_limit cpu →
          (x86_read_call_gate cpu idt_desc (g : Int)).1 = false
            ∧ (x86_read_call_gate cpu idt_desc (g : Int)).2.2 = cpu)
      ∧ (∀ cpu2 : CPUState,
          cpu2.vmcs VmcsField.VMCS_GUEST_IDTR_BASE = cpu.vmcs VmcsField.VMCS_GUEST_IDTR_BASE →
          cpu2.vmcs VmcsField.VMCS_GUEST_IDTR_LIMIT
            = cpu.vmcs VmcsField.VMCS_GUEST_IDTR_LIMIT →
          cpu2.mem = cpu.mem →
          (x86_read_call_gate cpu2 idt_desc (g : Int)).1
              = (x86_read_call_gate cpu idt_desc (g : Int)).1
            ∧ (x86_read_call_gate cpu2 idt_desc (g : Int)).2.1
              = (x86_read_call_gate cpu idt_desc (g : Int)).2.1) := by
  have key : ∀ c : CPUState,
      (g * 8 < idt_limit c →
        (x86_read_call_gate c idt_desc (g : Int)).1 = true
          ∧ (x86_read_call_gate c idt_desc (g : Int)).2.1.bytes
              = load_bytes c.mem (gate_addr c g) 8)
      ∧ (¬ g * 8 < idt_limit c →
        (x86_read_call_gate c idt_desc (g : Int)).1 = false
          ∧ (x86_read_call_gate c idt_desc (g : Int)).2.1.bytes
              = (ZERO_INIT_call_gate idt_desc).bytes) := by
    intro c
    constructor
    · intro hl
      exact ⟨(read_call_gate_ok c idt_desc g hrep hl).1, (read_call_gate_ok c idt_desc g hrep hl).2.1⟩
    · intro hl
      rw [read_call_gate_limit c idt_desc g hrep (Nat.not_lt.mp hl)]
      exact ⟨rfl, rfl⟩
  refine ⟨?_, ?_, ?_, ?_⟩
  · constructor
    · intro ht
      by_contra hl
      rw [((key cpu).2 hl).1] at ht
      exact Bool.noConfusion ht
    · intro hl
      exact ((key cpu).1 hl).1
  · intro hl
    exact (read_call_gate_ok cpu idt_desc g hrep hl).2
  · intro hl
    rw [read_call_gate_limit cpu idt_desc g hrep (Nat.not_lt.mp hl)]
    exact ⟨rfl, rfl⟩
  · intro cpu2 hb hlm hmem
    have e1 : idt_limit cpu2 = idt_limit cpu := by
      unfold idt_limit rvmcs; rw [hlm]
    have e2 : gate_addr cpu2 g = gate_addr cpu g := by
      unfold gate_addr rvmcs; rw [hb]
    by_cases hl : g * 8 < idt_limit cpu
    · have h2 := (key cpu2).1 (by rw [e1]; exact hl)
      have h1 := (key cpu).1 hl
      refine ⟨by rw [h1.1, h2.1], call_gate_eq_of_bytes ?_⟩
      rw [h1.2, h2.2, e2, hmem]
    · have h2 := (key cpu2).2 (by rw [e1]; exact hl)
      have h1 := (key cpu).2 hl
      refine ⟨by rw [h1.1, h2.1], call_gate_eq_of_bytes ?_⟩
      rw [h1.2, h2.2]

/-- C9 at IDTR base `0x3000`, limit `0x10`: gate 1 is read from the 8 bytes
at `0x3008`, gate 2 (2*8 = 16 = limit) fails with no access recorded. -/
theorem c9_read_call_gate_witness :
    (x86_read_call_gate sample_cpu sample_stale_gate 1).1 = true
      ∧ (x86_read_call_gate sample_cpu sample_stale_gate 1).2.1.bytes
          = [0x08, 0x09, 0x0A, 0x0B, 0x0C, 0x0D, 0x0E, 0x0F]
      ∧ (x86_read_call_gate sample_cpu sample_stale_gate 2).1 = false
      ∧ (x86_read_call_gate sample_cpu sample_stale_gate 2).2.2.accesses = [] :=
  ⟨(c9_read_call_gate sample_cpu sample_stale_gate 1 (by decide)).1.mpr (by decide),
   ((c9_read_call_gate sample_cpu sample_stale_gate 1 (by decide)).2.1 (by decide)).1.trans
      (by decide),
   ((c9_read_call_gate sample_cpu sample_stale_gate 2 (by decide)).2.2.1 (by decide)).1,
   congrArg CPUState.accesses
     ((c9_read_call_gate sample_cpu sample_stale_gate 2 (by decide)).2.2.1 (by decide)).2⟩

/-! ## Linear addresses -/

/-- C10: for every offset, every segment base and every int size,
`linear_addr_size` returns (base + (offset mod 2^16)) mod 2^64 when size = 2,
(base + (offset mod 2^32)) mod 2^64 when size = 4, and (base + offset)
mod 2^64 for every other size, where base is the segment base that the
control structure holds. -/
theorem c10_linear_addr_size (cpu : CPUState) (addr : Nat) (size : Int)
    (seg : x86_reg_segment) :
    (size = 2 → linear_addr_size cpu addr size seg
        = (vmx_read_segment_base cpu seg + addr % 2 ^ 16) % 2 ^ 64)
      ∧ (size = 4 → linear_addr_size cpu addr size seg
        = (vmx_read_segment_base cpu seg + addr % 2 ^ 32) % 2 ^ 64)
      ∧ (size ≠ 2 → size ≠ 4 → linear_addr_size cpu addr size seg
        = (vmx_read_segment_base cpu seg + addr) % 2 ^ 64) := by
  refine ⟨?_, ?_, ?_⟩
  · intro h
    unfold linear_addr_size linear_addr
    simp only [if_pos h]
    omega
  · intro h
    have h2 : size ≠ 2 := by omega
    unfold linear_addr_size linear_addr
    simp only [if_neg h2, if_pos h]
    omega
  · intro h2 h4
    unfold linear_addr_size linear_addr
    simp only [if_neg h2, if_neg h4]
    omega

/-- C10 at offset `0xFFFFFFFF`, base 0: size 2 gives `0xFFFF`, size 4 and the
sizes 8, 1, 0 and -1 give `0xFFFFFFFF`. -/
theorem c10_linear_addr_size_witness :
    vmx_read_segment_base sample_cpu x86_reg_segment.REG_SEG_DS = 0
      ∧ linear_addr_size sample_cpu 0xFFFFFFFF 2 x86_reg_segment.REG_SEG_DS = 0xFFFF
      ∧ linear_addr_size sample_cpu 0xFFFFFFFF 4 x86_reg_segment.REG_SEG_DS = 0xFFFFFFFF
      ∧ linear_addr_size sample_cpu 0xFFFFFFFF 8 x86_reg_segment.REG_SEG_DS = 0xFFFFFFFF
      ∧ linear_addr_size sample_cpu 0xFFFFFFFF 1 x86_reg_segment.REG_SEG_DS = 0xFFFFFFFF
      ∧ linear_addr_size sample_cpu 0xFFFFFFFF 0 x86_reg_segment.REG_SEG_DS = 0xFFFFFFFF
      ∧ linear_addr_size sample_cpu 0xFFFFFFFF (-1) x86_reg_segment.REG_SEG_DS = 0xFFFFFFFF :=
  ⟨by decide,
   ((c10_linear_addr_size sample_cpu 0xFFFFFFFF 2 x86_reg_segment.REG_SEG_DS).1 rfl).trans
     (by decide),
   ((c10_linear_addr_size sample_cpu 0xFFFFFFFF 4 x86_reg_segment.REG_SEG_DS).2.1 rfl).trans
     (by decide),
   by decide, by decide, by decide, by decide⟩

/-! ## Linear addresses from the cached segment base -/

/-- C11: for every CPU state, segment register and offset, `linear_addr`
returns (B + offset) mod 2^64 where B is the control structure's cached base
field of that segment; the sum wraps around instead of being checked against
an overflow or a limit, and the result is the same on any CPU with the same
control structure, whatever its guest memory holds. -/
theorem c11_linear_addr (cpu : CPUState) (addr : Nat) (seg : x86_reg_segment) :
    linear_addr cpu addr seg = (rvmcs cpu (vmx_segment_base_field seg) + addr) % 2 ^ 64
      ∧ (∀ cpu2 : CPUState, cpu2.vmcs = cpu.vmcs →
          linear_addr cpu2 addr seg = linear_addr cpu addr seg) := by
  constructor
  · unfold linear_addr vmx_read_segment_base
    omega
  · intro cpu2 h
    unfold linear_addr vmx_read_segment_base rvmcs
    rw [h]

/-- C11 at CS base `2^64 - 1`: offset 2 wraps around to 1, and the result is
the same after guest memory is overwritten. -/
theorem c11_linear_addr_witness :
    linear_addr sample_cpu_long 2 x86_reg_segment.REG_SEG_CS = 1
      ∧ linear_addr { sample_cpu_long with mem := fun _ => 0xFF } 2 x86_reg_segment.REG_SEG_CS
          = linear_addr sample_cpu_long 2 x86_reg_segment.REG_SEG_CS :=
  ⟨(c11_linear_addr sample_cpu_long 2 x86_reg_segment.REG_SEG_CS).1.trans (by decide),
   (c11_linear_addr sample_cpu_long 2 x86_reg_segment.REG_SEG_CS).2 _ rfl⟩

/-- C17: `linear_rip` is `linear_addr` against the code segment: for every
CPU state and offset, linear_rip(offset) = linear_addr(offset, CS) =
linear_addr_size(offset, 8, CS). -/
theorem c17_linear_rip (cpu : CPUState) (rip : Nat) :
    linear_rip cpu rip = linear_addr cpu rip x86_reg_segment.REG_SEG_CS
      ∧ linear_rip cpu rip = linear_addr_size cpu rip 8 x86_reg_segment.REG_SEG_CS := by
  constructor
  · rfl
  · unfold linear_rip linear_addr_size linear_addr
    have h2 : ¬ ((8 : Int) = 2) := by decide
    have h4 : ¬ ((8 : Int) = 4) := by decide
    simp only [if_neg h2, if_neg h4]
    omega

/-- C17 at CS base `2^64 - 1` and offset `0x1001`: all three give `0x1000`. -/
theorem c17_linear_rip_witness :
    linear_rip sample_cpu_long 0x1001 = 0x1000
      ∧ linear_addr sample_cpu_long 0x1001 x86_reg_segment.REG_SEG_CS = 0x1000
      ∧ linear_addr_size sample_cpu_long 0x1001 8 x86_reg_segment.REG_SEG_CS = 0x1000 :=
  ⟨by decide,
   (c17_linear_rip sample_cpu_long 0x1001).1.symm.trans (by decide),
   (c17_linear_rip sample_cpu_long 0x1001).2.symm.trans (by decide)⟩

/-! ## CPU mode classifier -/

theorem and_two_pow_ne_zero_iff (v k : Nat) : v &&& 2 ^ k ≠ 0 ↔ v.testBit k = true := by
  constructor
  · intro h
    by_contra hb
    apply h
    apply Nat.zero_of_testBit_eq_false
    intro i
    rw [Nat.testBit_and, Nat.testBit_two_pow]
    by_cases hik : k = i
    · subst hik
      simp [hb]
    · simp [hik]
  · intro hb h0
    have h1 : (v &&& 2 ^ k).testBit k = true := by
      rw [Nat.testBit_and, hb, Nat.testBit_two_pow_self]
      rfl
    rw [h0] at h1
    simp at h1

theorem decide_and_two_pow (v k : Nat) : decide (v &&& 2 ^ k ≠ 0) = v.testBit k := by
  by_cases hb : v.testBit k = true
  · rw [hb]; exact decide_eq_true ((and_two_pow_ne_zero_iff v k).mpr hb)
  · have hf : v.testBit k = false := by simpa using hb
    rw [hf]
    exact decide_eq_false (fun h => hb ((and_two_pow_ne_zero_iff v k).mp h))

theorem x86_is_protected_eq (cpu : CPUState) :
    x86_is_protected cpu = (rvmcs cpu VmcsField.VMCS_GUEST_CR0).testBit 0 :=
  decide_and_two_pow _ 0

theorem x86_is_long_mode_eq (cpu : CPUState) :
    x86_is_long_mode cpu = (rvmcs cpu VmcsField.VMCS_GUEST_IA32_EFER).testBit 10 :=
  decide_and_two_pow _ 10


theorem x86_is_paging_mode_eq (cpu : CPUState) :
    x86_is_paging_mode cpu = (rvmcs cpu VmcsField.VMCS_GUEST_CR0).testBit 31 :=
  decide_and_two_pow _ 31

theorem x86_is_pae_enabled_eq (cpu : CPUState) :
    x86_is_pae_enabled cpu = (rvmcs cpu VmcsField.VMCS_GUEST_CR4).testBit 5 :=
  decide_and_two_pow _ 5

theorem x86_is_long64_mode_eq (cpu : CPUState) :
    (x86_is_long64_mode cpu).1 = (x86_is_long_mode cpu && (code_segment_ar cpu).testBit 13) := by
  have hl : x86_is_long_mode (vmx_read_segment_descriptor cpu x86_reg_segment.REG_SEG_CS).2
      = x86_is_long_mode cpu := rfl
  have hb : ∀ a : Nat, decide ((a >>> 13) &&& 1 ≠ 0) = a.testBit 13 := by
    intro a
    have hx : ∀ x : Nat, decide (x ≠ 0) = (x != 0) := by
      intro x
      cases x <;> rfl
    rw [Nat.and_comm]
    exact hx _
  show (x86_is_long_mode (vmx_read_segment_descriptor cpu x86_reg_segment.REG_SEG_CS).2
      && decide (((vmx_read_segment_descriptor cpu x86_reg_segment.REG_SEG_CS).1.ar >>> 13)
        &&& 1 ≠ 0)) = _
  rw [hl, hb]
  rfl

/-- C12: for every CPU state, `x86_is_long64_mode` returns true if and only
if `x86_is_long_mode` is true and bit 13 of the access-rights word of the
current code segment is set; in particular `x86_is_long64_mode` implies
`x86_is_long_mode`, and `x86_is_long_mode` is the long-mode-active bit
(bit 10) of EFER. -/
theorem c12_is_long64_mode (cpu : CPUState) :
    ((x86_is_long64_mode cpu).1 = true
        ↔ x86_is_long_mode cpu = true ∧ (code_segment_ar cpu).testBit 13 = true)
      ∧ ((x86_is_long64_mode cpu).1 = true → x86_is_long_mode cpu = true)
      ∧ x86_is_long_mode cpu = (rvmcs cpu VmcsField.VMCS_GUEST_IA32_EFER).testBit 10 := by
  rw [x86_is_long64_mode_eq]
  refine ⟨?_, ?_, x86_is_long_mode_eq cpu⟩
  · simp
  · intro h
    simp at h
    exact h.1

/-- C12 at a CPU in 64-bit mode (true), at the same CPU with EFER 0 (false),
and at the same CPU with cached CS access rights `0x809B`, bit 13 clear,
while long mode is active (false). -/
theorem c12_is_long64_mode_witness :
    (x86_is_long64_mode sample_cpu_long).1 = true
      ∧ (x86_is_long64_mode (sample_cpu_long_with VmcsField.VMCS_GUEST_IA32_EFER 0)).1 = false
      ∧ x86_is_long_mode
          (sample_cpu_long_with VmcsField.VMCS_GUEST_CS_ACCESS_RIGHTS 0x809B) = true
      ∧ (x86_is_long64_mode
          (sample_cpu_long_with VmcsField.VMCS_GUEST_CS_ACCESS_RIGHTS 0x809B)).1 = false :=
  ⟨(c12_is_long64_mode sample_cpu_long).1.mpr ⟨by decide, by decide⟩,
   by decide, by decide, by decide⟩

/-- C13: for every CPU state, `x86_is_v8086` returns true if and only if
`x86_is_protected` is true and bit 17 of the flags register (the
virtual-8086 flag) is set; it is false whenever `x86_is_protected` is false,
whatever the flags register holds. -/
theorem c13_is_v8086 (cpu : CPUState) :
    (x86_is_v8086 cpu = true
        ↔ x86_is_protected cpu = true ∧ (RFLAGS cpu).testBit 17 = true)
      ∧ (x86_is_protected cpu = false → x86_is_v8086 cpu = false) := by
  have h : x86_is_v8086 cpu = (x86_is_protected cpu && (RFLAGS cpu).testBit 17) := by
    unfold x86_is_v8086
    rw [← decide_and_two_pow (RFLAGS cpu) 17]
    rfl
  rw [h]
  constructor
  · simp
  · intro hp
    rw [hp]
    rfl

/-- C13 at a CPU with PE and the virtual-8086 flag set (true), and at the
same CPU with every CR0 bit but PE set, the virtual-8086 flag still set
(false). -/
theorem c13_is_v8086_witness :
    x86_is_v8086 sample_cpu_long = true
      ∧ (RFLAGS (sample_cpu_long_with VmcsField.VMCS_GUEST_CR0 0xFFFFFFFFFFFFFFFE)).testBit 17
          = true
      ∧ x86_is_v8086 (sample_cpu_long_with VmcsField.VMCS_GUEST_CR0 0xFFFFFFFFFFFFFFFE)
          = false :=
  ⟨(c13_is_v8086 sample_cpu_long).1.mpr ⟨by decide, by decide⟩,
   by decide,
   (c13_is_v8086 (sample_cpu_long_with VmcsField.VMCS_GUEST_CR0 0xFFFFFFFFFFFFFFFE)).2
     (by decide)⟩

/-- C14: for every CPU state (every CR0 value and every value of all other
fields), `x86_is_real` is the negation of `x86_is_protected`: exactly one of
the two is true. -/
theorem c14_is_real (cpu : CPUState) :
    x86_is_real cpu = (!x86_is_protected cpu)
      ∧ ((x86_is_real cpu = true ∧ x86_is_protected cpu = false)
          ∨ (x86_is_real cpu = false ∧ x86_is_protected cpu = true)) := by
  unfold x86_is_real
  cases x86_is_protected cpu <;> simp

/-- C14 at a CPU with PE set and at the same CPU with every CR0 bit but PE
set. -/
theorem c14_is_real_witness :
    x86_is_real sample_cpu_long = false
      ∧ x86_is_real (sample_cpu_long_with VmcsField.VMCS_GUEST_CR0 0xFFFFFFFFFFFFFFFE) = true :=
  ⟨(c14_is_real sample_cpu_long).1.trans (by decide),
   (c14_is_real (sample_cpu_long_with VmcsField.VMCS_GUEST_CR0 0xFFFFFFFFFFFFFFFE)).1.trans
     (by decide)⟩

/-- C15: each single-bit mode query equals exactly its one bit of the 64-bit
register value, whatever the other bits and fields are: `x86_is_protected`
is bit 0 of CR0 (PE), `x86_is_paging_mode` is bit 31 of CR0 (PG),
`x86_is_pae_enabled` is bit 5 of CR4 (PAE), `x86_is_long_mode` is bit 10 of
EFER (LMA). -/
theorem c15_single_bit_queries (cpu : CPUState) :
    x86_is_protected cpu = (rvmcs cpu VmcsField.VMCS_GUEST_CR0).testBit 0
      ∧ x86_is_paging_mode cpu = (rvmcs cpu VmcsField.VMCS_GUEST_CR0).testBit 31
      ∧ x86_is_pae_enabled cpu = (rvmcs cpu VmcsField.VMCS_GUEST_CR4).testBit 5
      ∧ x86_is_long_mode cpu = (rvmcs cpu VmcsField.VMCS_GUEST_IA32_EFER).testBit 10 :=
  ⟨x86_is_protected_eq cpu, x86_is_paging_mode_eq cpu, x86_is_pae_enabled_eq cpu,
   x86_is_long_mode_eq cpu⟩

/-- C15 at register values with only the queried bit set (true, although the
low byte of CR0 is 0 for PG and the low byte of EFER is 0 for LMA) and with
every bit but the queried one set (false). -/
theorem c15_single_bit_queries_witness :
    x86_is_protected (sample_cpu_long_with VmcsField.VMCS_GUEST_CR0 1) = true
      ∧ x86_is_protected
          (sample_cpu_long_with VmcsField.VMCS_GUEST_CR0 0xFFFFFFFFFFFFFFFE) = false
      ∧ x86_is_paging_mode (sample_cpu_long_with VmcsField.VMCS_GUEST_CR0 0x80000000) = true
      ∧ x86_is_paging_mode
          (sample_cpu_long_with VmcsField.VMCS_GUEST_CR0 0xFFFFFFFF7FFFFFFF) = false
      ∧ x86_is_pae_enabled (sample_cpu_long_with VmcsField.VMCS_GUEST_CR4 0x20) = true
      ∧ x86_is_pae_enabled
          (sample_cpu_long_with VmcsField.VMCS_GUEST_CR4 0xFFFFFFFFFFFFFFDF) = false
      ∧ x86_is_long_mode (sample_cpu_long_with VmcsField.VMCS_GUEST_IA32_EFER 0x400) = true
      ∧ x86_is_long_mode
          (sample_cpu_long_with VmcsField.VMCS_GUEST_IA32_EFER 0xFFFFFFFFFFFFFBFF) = false :=
  ⟨(c15_single_bit_queries (sample_cpu_long_with VmcsField.VMCS_GUEST_CR0 1)).1.trans
     (by decide),
   by decide, by decide, by decide, by decide, by decide, by decide, by decide⟩


/-- C16 as stated fails: on a CPU with EFER.LMA set and bit 13 of the cached
code-segment access rights set, `x86_is_long64_mode` returns true although the
code-segment selector is invalid, both for the null global-table selector
(requested privilege level 3) and for selector `0x40` (index 8, 8*8 = GDTR
limit). -/
theorem c16_long64_invalid_selector_counterexample :
    ((code_segment_selector
          (sample_cpu_long_with VmcsField.VMCS_GUEST_CS_SELECTOR 3)).index.val = 0
        ∧ (code_segment_selector
          (sample_cpu_long_with VmcsField.VMCS_GUEST_CS_SELECTOR 3)).ti.val = GDT_SEL)
      ∧ (x86_is_long64_mode (sample_cpu_long_with VmcsField.VMCS_GUEST_CS_SELECTOR 3)).1
          = true
      ∧ table_limit (sample_cpu_long_with VmcsField.VMCS_GUEST_CS_SELECTOR 0x40)
            (code_segment_selector (sample_cpu_long_with VmcsField.VMCS_GUEST_CS_SELECTOR 0x40))
          ≤ (code_segment_selector
              (sample_cpu_long_with VmcsField.VMCS_GUEST_CS_SELECTOR 0x40)).index.val * 8
      ∧ (x86_is_long64_mode (sample_cpu_long_with VmcsField.VMCS_GUEST_CS_SELECTOR 0x40)).1
          = true := by
  decide

/-- C16 (amended): `x86_is_long64_mode` does not consult the code-segment
selector: for every CPU state in which that selector is invalid (the null
global-table selector, or index*8 >= the limit of the table it names), it
returns false if and only if the EFER long-mode-active bit is clear or bit 13
of the cached code-segment access rights is clear, and it makes no
guest-memory access and leaves the CPU unchanged. -/
theorem c16_long64_selector_not_consulted (cpu : CPUState)
    (_hinv : ((code_segment_selector cpu).index.val = 0
              ∧ (code_segment_selector cpu).ti.val = GDT_SEL)
            ∨ table_limit cpu (code_segment_selector cpu)
                ≤ (code_segment_selector cpu).index.val * 8) :
    ((x86_is_long64_mode cpu).1 = false
        ↔ x86_is_long_mode cpu = false
            ∨ (rvmcs cpu VmcsField.VMCS_GUEST_CS_ACCESS_RIGHTS).testBit 13 = false)
      ∧ (x86_is_long64_mode cpu).2 = cpu := by
  refine ⟨?_, rfl⟩
  rw [x86_is_long64_mode_eq]
  have har : code_segment_ar cpu = rvmcs cpu VmcsField.VMCS_GUEST_CS_ACCESS_RIGHTS := rfl
  rw [har]
  cases x86_is_long_mode cpu <;>
    cases (rvmcs cpu VmcsField.VMCS_GUEST_CS_ACCESS_RIGHTS).testBit 13 <;> simp

/-- C16 (amended) at a CPU with the null CS selector and EFER.LMA set: with
bit 13 of the cached CS access rights clear the result is false; and at a CPU
with the null CS selector and EFER 0 the result is false. -/
theorem c16_long64_selector_not_consulted_witness :
    x86_is_long_mode sample_cpu_long_null_cs = true
      ∧ (x86_is_long64_mode sample_cpu_long_null_cs).1 = false
      ∧ (x86_is_long64_mode sample_cpu).1 = false
      ∧ (x86_is_long64_mode sample_cpu_long_null_cs).2.accesses = [] :=
  ⟨by decide,
   (c16_long64_selector_not_consulted sample_cpu_long_null_cs (Or.inl (by decide))).1.mpr
     (Or.inr (by decide)),
   (c16_long64_selector_not_consulted sample_cpu (Or.inl (by decide))).1.mpr
     (Or.inl (by decide)),
   congrArg CPUState.accesses
     (c16_long64_selector_not_consulted sample_cpu_long_null_cs (Or.inl (by decide))).2⟩

/-! ## Read and write acceptance -/

theorem read_write_agree (cpu : CPUState) (desc0 D : x86_segment_descriptor)
    (sel : x68_segment_selector) (hn : ¬ (sel.index.val = 0 ∧ GDT_SEL = sel.ti.val)) :
    (x86_read_segment_descriptor cpu desc0 sel).1
      = (x86_write_segment_descriptor cpu D sel).1 := by
  by_cases hlim : sel.index.val * 8 < table_limit cpu sel
  · rw [(read_segment_descriptor_ok cpu desc0 sel hn hlim).1,
      write_segment_descriptor_ok cpu D sel hlim]
  · rw [read_segment_descriptor_limit cpu desc0 sel (Nat.not_lt.mp hlim),
      write_segment_descriptor_limit cpu D sel (Nat.not_lt.mp hlim)]

/-- C18: the selectors the read accepts are accepted by the write, and read
and write disagree exactly on global-table selectors with index 0 when the
GDTR limit is greater than 0: there the write returns true and stores the 8
bytes of D at the GDTR base, while the read returns false. -/
theorem c18_acceptance (cpu : CPUState) (desc0 D : x86_segment_descriptor)
    (sel : x68_segment_selector) :
    ((x86_read_segment_descriptor cpu desc0 sel).1 = true →
        (x86_write_segment_descriptor cpu D sel).1 = true)
      ∧ ((x86_read_segment_descriptor cpu desc0 sel).1
            ≠ (x86_write_segment_descriptor cpu D sel).1
          ↔ sel.index.val = 0 ∧ sel.ti.val = GDT_SEL
              ∧ 0 < rvmcs cpu VmcsField.VMCS_GUEST_GDTR_LIMIT % 2 ^ 32)
      ∧ (sel.index.val = 0 → sel.ti.val = GDT_SEL →
          0 < rvmcs cpu VmcsField.VMCS_GUEST_GDTR_LIMIT % 2 ^ 32 →
          (x86_write_segment_descriptor cpu D sel).1 = true
            ∧ (x86_read_segment_descriptor cpu desc0 sel).1 = false
            ∧ load_bytes (x86_write_segment_descriptor cpu D sel).2.mem
                (rvmcs cpu VmcsField.VMCS_GUEST_GDTR_BASE) 8 = D.bytes) := by
  by_cases hn : sel.index.val = 0 ∧ GDT_SEL = sel.ti.val
  · have hr := read_segment_descriptor_null cpu desc0 sel hn
    have hlimit : table_limit cpu sel = rvmcs cpu VmcsField.VMCS_GUEST_GDTR_LIMIT % 2 ^ 32 := by
      unfold table_limit
      rw [if_pos hn.2]
    have haddr : slot_addr cpu sel = rvmcs cpu VmcsField.VMCS_GUEST_GDTR_BASE := by
      unfold slot_addr table_base
      rw [if_pos hn.2, hn.1]
      unfold rvmcs
      omega
    by_cases hlim : 0 < rvmcs cpu VmcsField.VMCS_GUEST_GDTR_LIMIT % 2 ^ 32
    · have hlim2 : sel.index.val * 8 < table_limit cpu sel := by
        rw [hlimit, hn.1]; exact hlim
      have hw := write_segment_descriptor_ok cpu D sel hlim2
      rw [hr, hw]
      refine ⟨fun h => Bool.noConfusion h, ⟨fun _ => ⟨hn.1, hn.2.symm, hlim⟩, fun _ h => Bool.noConfusion h⟩,
        fun _ _ _ => ⟨rfl, rfl, ?_⟩⟩
      have hlen : D.bytes.length ≤ 2 ^ 64 := by rw [D.size_eq]; decide
      have hrs := read_store_bytes D.bytes cpu.mem (slot_addr cpu sel) hlen
      rw [D.size_eq, haddr] at hrs
      rw [haddr]
      exact hrs
    · have hlim2 : table_limit cpu sel ≤ sel.index.val * 8 := by
        rw [hlimit]; omega
      have hw := write_segment_descriptor_limit cpu D sel hlim2
      rw [hr, hw]
      exact ⟨fun h => Bool.noConfusion h, ⟨fun h => absurd rfl h, fun h => absurd h.2.2 hlim⟩,
        fun _ _ h => absurd h hlim⟩
  · have hne : ¬ (sel.index.val = 0 ∧ sel.ti.val = GDT_SEL ∧
        0 < rvmcs cpu VmcsField.VMCS_GUEST_GDTR_LIMIT % 2 ^ 32) :=
      fun h => hn ⟨h.1, h.2.1.symm⟩
    have hsame := read_write_agree cpu desc0 D sel hn
    rw [hsame]
    exact ⟨fun h => h, ⟨fun h => absurd rfl h, fun h => absurd h hne⟩,
      fun h1 h2 _ => absurd ⟨h1, h2.symm⟩ hn⟩


/-- C18 at GDTR base `0x1000`, limit `0x40` and the null global selector: the
write returns true and stores D at `0x1000`, the read returns false; at
global index 2 both return true, at global index 8 both return false. -/
theorem c18_acceptance_witness :
    (x86_write_segment_descriptor sample_cpu sample_code_descriptor sample_sel_null).1 = true
      ∧ (x86_read_segment_descriptor sample_cpu sample_absent_descriptor sample_sel_null).1
          = false
      ∧ load_bytes
          (x86_write_segment_descriptor sample_cpu sample_code_descriptor sample_sel_null).2.mem
          0x1000 8 = sample_code_descriptor.bytes
      ∧ (x86_read_segment_descriptor sample_cpu sample_absent_descriptor sample_sel_gdt2).1
          = (x86_write_segment_descriptor sample_cpu sample_code_descriptor sample_sel_gdt2).1
      ∧ (x86_read_segment_descriptor sample_cpu sample_absent_descriptor sample_sel_gdt8).1
          = (x86_write_segment_descriptor sample_cpu sample_code_descriptor
              sample_sel_gdt8).1 :=
  ⟨((c18_acceptance sample_cpu sample_absent_descriptor sample_code_descriptor
      sample_sel_null).2.2 (by decide) (by decide) (by decide)).1,
   ((c18_acceptance sample_cpu sample_absent_descriptor sample_code_descriptor
      sample_sel_null).2.2 (by decide) (by decide) (by decide)).2.1,
   ((c18_acceptance sample_cpu sample_absent_descriptor sample_code_descriptor
      sample_sel_null).2.2 (by decide) (by decide) (by decide)).2.2,
   by decide, by decide⟩

/-- C19: the bounds check compares index*8 with the limit and nothing else,
so a transfer that succeeds can reach past the limit: there are a CPU state
and a selector for which `x86_read_segment_descriptor` returns true and reads
the 8 bytes of the slot although index*8 + 7 is greater than the limit; the
same holds for `x86_write_segment_descriptor`, which then stores all 8 bytes,
and for `x86_read_call_gate` against the IDTR limit. -/
theorem c19_transfer_past_limit :
    (∃ (cpu : CPUState) (desc : x86_segment_descriptor) (sel : x68_segment_selector),
        (x86_read_segment_descriptor cpu desc sel).1 = true
          ∧ table_limit cpu sel < sel.index.val * 8 + 7
          ∧ (x86_read_segment_descriptor cpu desc sel).2.1.bytes
              = load_bytes cpu.mem (slot_addr cpu sel) 8
          ∧ (x86_read_segment_descriptor cpu desc sel).2.2.accesses
              = cpu.accesses ++ [MemAccess.read (slot_addr cpu sel) 8])
      ∧ (∃ (cpu : CPUState) (D : x86_segment_descriptor) (sel : x68_segment_selector),
          (x86_write_segment_descriptor cpu D sel).1 = true
            ∧ table_limit cpu sel < sel.index.val * 8 + 7
            ∧ load_bytes (x86_write_segment_descriptor cpu D sel).2.mem (slot_addr cpu sel) 8
                = D.bytes
            ∧ (x86_write_segment_descriptor cpu D sel).2.accesses
                = cpu.accesses ++ [MemAccess.write (slot_addr cpu sel) 8])
      ∧ (∃ (cpu : CPUState) (idt_desc : x86_call_gate) (g : Nat),
          (x86_read_call_gate cpu idt_desc (g : Int)).1 = true
            ∧ idt_limit cpu < g * 8 + 7
            ∧ (x86_read_call_gate cpu idt_desc (g : Int)).2.1.bytes
                = load_bytes cpu.mem (gate_addr cpu g) 8
            ∧ (x86_read_call_gate cpu idt_desc (g : Int)).2.2.accesses
                = cpu.accesses ++ [MemAccess.read (gate_addr cpu g) 8]) :=
  ⟨⟨sample_cpu, sample_absent_descriptor, sample_sel_ldt0, by decide⟩,
   ⟨sample_cpu, sample_code_descriptor, sample_sel_ldt0, by decide⟩,
   ⟨sample_cpu_idt1, sample_stale_gate, 0, by decide⟩⟩

/-- C19 at the local-table selector with index 0 and LDTR base `0x2000`,
limit 1: read and write succeed and transfer the bytes at `0x2000` ..
`0x2007`, table offsets 0 .. 7; and gate 0 is read from `0x3000` ..
`0x3007` with IDTR limit 1. -/
theorem c19_transfer_past_limit_witness :
    table_limit sample_cpu sample_sel_ldt0 = 1
      ∧ (x86_read_segment_descriptor sample_cpu sample_absent_descriptor sample_sel_ldt0).1
          = true
      ∧ (x86_read_segment_descriptor sample_cpu sample_absent_descriptor
          sample_sel_ldt0).2.1.bytes = [0x00, 0x01, 0x02, 0x03, 0x04, 0x05, 0x06, 0x07]
      ∧ (x86_read_segment_descriptor sample_cpu sample_absent_descriptor
          sample_sel_ldt0).2.2.accesses = [MemAccess.read 0x2000 8]
      ∧ (x86_write_segment_descriptor sample_cpu sample_code_descriptor sample_sel_ldt0).1
          = true
      ∧ (x86_write_segment_descriptor sample_cpu sample_code_descriptor
          sample_sel_ldt0).2.mem 0x2007 = 0
      ∧ idt_limit sample_cpu_idt1 = 1
      ∧ (x86_read_call_gate sample_cpu_idt1 sample_stale_gate 0).1 = true
      ∧ (x86_read_call_gate sample_cpu_idt1 sample_stale_gate 0).2.2.accesses
          = [MemAccess.read 0x3000 8] := by
  decide


/-! ## The access-rights word as a projection -/

theorem access_rights_absent_eq (var : x86_segment_descriptor) (hp : var.p = 0) :
    x86_segment_access_rights var = 0x10000 := by
  unfold x86_segment_access_rights
  rw [if_pos hp]
  decide

/-- C20: for any two descriptors with the present flag set, the
access-rights words are equal if and only if the descriptors agree on type,
s, dpl, avl, l, db and g (so the base and limit bits never affect the word);
and for every descriptor bit 16 of the word is set if and only if the
present flag is clear, while bit 7 is set if and only if the present flag is
set. -/
theorem c20_access_rights_projection (d1 d2 : x86_segment_descriptor) :
    (d1.p ≠ 0 → d2.p ≠ 0 →
        (x86_segment_access_rights d1 = x86_segment_access_rights d2
          ↔ d1.type = d2.type ∧ d1.s = d2.s ∧ d1.dpl = d2.dpl ∧ d1.avl = d2.avl
              ∧ d1.l = d2.l ∧ d1.db = d2.db ∧ d1.g = d2.g))
      ∧ ((x86_segment_access_rights d1).testBit 16 = true ↔ d1.p = 0)
      ∧ ((x86_segment_access_rights d1).testBit 7 = true ↔ d1.p ≠ 0) := by
  have ht1 : d1.type < 2 ^ 4 := bits_lt d1 40 4
  have hs1 : d1.s < 2 ^ 1 := bits_lt d1 44 1
  have hd1 : d1.dpl < 2 ^ 2 := bits_lt d1 45 2
  have ha1 : d1.avl < 2 ^ 1 := bits_lt d1 52 1
  have hl1 : d1.l < 2 ^ 1 := bits_lt d1 53 1
  have hb1 : d1.db < 2 ^ 1 := bits_lt d1 54 1
  have hg1 : d1.g < 2 ^ 1 := bits_lt d1 55 1
  refine ⟨?_, ?_, ?_⟩
  · intro hp1 hp2
    have ht2 : d2.type < 2 ^ 4 := bits_lt d2 40 4
    have hs2 : d2.s < 2 ^ 1 := bits_lt d2 44 1
    have hd2 : d2.dpl < 2 ^ 2 := bits_lt d2 45 2
    have ha2 : d2.avl < 2 ^ 1 := bits_lt d2 52 1
    have hl2 : d2.l < 2 ^ 1 := bits_lt d2 53 1
    have hb2 : d2.db < 2 ^ 1 := bits_lt d2 54 1
    have hg2 : d2.g < 2 ^ 1 := bits_lt d2 55 1
    rw [access_rights_present_sum d1 hp1, access_rights_present_sum d2 hp2]
    constructor
    · intro h
      refine ⟨?_, ?_, ?_, ?_, ?_, ?_, ?_⟩ <;> omega
    · intro h
      obtain ⟨e1, e2, e3, e4, e5, e6, e7⟩ := h
      rw [e1, e2, e3, e4, e5, e6, e7]
  · rw [Nat.testBit_to_div_mod, decide_eq_true_iff]
    by_cases hp : d1.p = 0
    · rw [access_rights_absent_eq d1 hp]
      exact ⟨fun _ => hp, fun _ => by decide⟩
    · rw [access_rights_present_sum d1 hp]
      constructor
      · intro h; omega
      · intro h; exact absurd h hp
  · rw [Nat.testBit_to_div_mod, decide_eq_true_iff]
    by_cases hp : d1.p = 0
    · rw [access_rights_absent_eq d1 hp]
      constructor
      · intro h; exact absurd h (by decide)
      · intro h; exact absurd hp h
    · rw [access_rights_present_sum d1 hp]
      constructor
      · intro _; exact hp
      · intro _; omega

/-- C20 at three present descriptors: two that differ in base and limit bits
only have the same word `0xA09B`, and one that differs in the type field has
another word; the absent descriptor has bit 16 set and bit 7 clear. -/
theorem c20_access_rights_projection_witness :
    sample_code_descriptor_moved ≠ sample_code_descriptor
      ∧ x86_segment_access_rights sample_code_descriptor_moved
          = x86_segment_access_rights sample_code_descriptor
      ∧ x86_segment_access_rights sample_code_descriptor_type10
          ≠ x86_segment_access_rights sample_code_descriptor
      ∧ (x86_segment_access_rights sample_absent_descriptor).testBit 16 = true
      ∧ (x86_segment_access_rights sample_absent_descriptor).testBit 7 = false :=
  ⟨by decide,
   ((c20_access_rights_projection sample_code_descriptor_moved sample_code_descriptor).1
      (by decide) (by decide)).mpr (by decide),
   fun h => absurd
     (((c20_access_rights_projection sample_code_descriptor_type10 sample_code_descriptor).1
        (by decide) (by decide)).mp h).1 (by decide),
   (c20_access_rights_projection sample_absent_descriptor sample_absent_descriptor).2.1.mpr
     (by decide),
   by decide⟩

end Vdhh
